import Mathlib

/-!
Shallow embedding of the BetterPlay backend's time-slot availability and
booking-conflict core (time parser, slot generator, overlap checker, slot and
booking routes), together with theorems checking the specification's claims
against it.

JavaScript numbers that can be NaN are modelled as `Option Int` (`none` = NaN);
comparisons against NaN are false, and arithmetic propagates NaN, exactly as in
the source. Strings are processed on their underlying character lists.
-/

namespace BPlay

/-- Whitespace as matched by the source's trims and regexes. -/
def jsIsWs (c : Char) : Bool :=
  c = ' ' || c = '\t' || c = '\n' || c = '\r'

/-- ASCII lowercasing of one character, as in `String.prototype.toLowerCase`. -/
def jsLowerChar (c : Char) : Char :=
  if 'A' ≤ c ∧ c ≤ 'Z' then Char.ofNat (c.toNat + 32) else c

/-- Does `s` start with `pat`? -/
def listStartsWith : List Char → List Char → Bool
  | [], _ => true
  | _ :: _, [] => false
  | p :: ps, c :: cs => (p = c) && listStartsWith ps cs

/-- Does `pat` occur as a contiguous substring of the list? -/
def listContainsSub (pat : List Char) : List Char → Bool
  | [] => listStartsWith pat []
  | c :: cs => listStartsWith pat (c :: cs) || listContainsSub pat cs

/-- Model of `s.toLowerCase().includes(pat)` from the source. -/
def jsLowerIncludes (s : String) (pat : String) : Bool :=
  listContainsSub pat.data (s.data.map jsLowerChar)

/-- Leading decimal-digit run parsed to a number; `none` when there is none
(the NaN case of `parseInt`). -/
def parseDigits (l : List Char) : Option Nat :=
  let ds := l.takeWhile (fun c => '0' ≤ c ∧ c ≤ '9')
  if ds.isEmpty then none
  else some (ds.foldl (fun a c => a * 10 + (c.toNat - 48)) 0)

/-- Model of JavaScript `parseInt(s, 10)`: skip leading whitespace, optional
sign, then the leading digit run; NaN (`none`) when no digits follow. -/
def jsParseIntChars (l : List Char) : Option Int :=
  let l1 := l.dropWhile jsIsWs
  match l1 with
  | '-' :: rest => (parseDigits rest).map (fun n => -(n : Int))
  | '+' :: rest => (parseDigits rest).map (fun n => (n : Int))
  | _ => (parseDigits l1).map (fun n => (n : Int))

def jsParseInt (s : String) : Option Int :=
  jsParseIntChars s.data

/-- `parseInt` applied to a possibly-`undefined` string (NaN on `undefined`). -/
def jsParseIntOpt : Option String → Option Int
  | none => none
  | some s => jsParseInt s

/-- One attempt of the regex `\s*(am|pm)\s*` (case-insensitive) anchored at the
head of the list: on success, the remainder after the matched region. -/
def matchAmPmAt (l : List Char) : Option (List Char) :=
  let l1 := l.dropWhile jsIsWs
  match l1 with
  | a :: b :: rest =>
    if (jsLowerChar a = 'a' ∨ jsLowerChar a = 'p') ∧ jsLowerChar b = 'm' then
      some (rest.dropWhile jsIsWs)
    else none
  | _ => none

/-- Fuel-driven scan for `timeStr.replace(/\s*(am|pm)\s*/gi, "")`: remove every
match of the pattern, left to right. The fuel only guarantees structural
recursion; it never runs out when initialized with the list length. -/
def stripAmPmAux : Nat → List Char → List Char
  | 0, _ => []
  | _ + 1, [] => []
  | fuel + 1, c :: cs =>
    match matchAmPmAt (c :: cs) with
    | some rest => stripAmPmAux fuel rest
    | none => c :: stripAmPmAux fuel cs

/-- Model of `timeStr.replace(/\s*(am|pm)\s*/gi, "")`. -/
def stripAmPmChars (l : List Char) : List Char :=
  stripAmPmAux l.length l

/-- Model of `String.prototype.trim`. -/
def trimChars (l : List Char) : List Char :=
  ((l.dropWhile jsIsWs).reverse.dropWhile jsIsWs).reverse

/-- Model of `s.split(":")`. -/
def splitColonAux : List Char → List Char → List (List Char)
  | [], acc => [acc.reverse]
  | c :: cs, acc =>
    if c = ':' then acc.reverse :: splitColonAux cs []
    else splitColonAux cs (c :: acc)

def splitColon (l : List Char) : List (List Char) :=
  splitColonAux l []

/-- Result type of the time parser: `hour` is `none` when the JavaScript value
would be NaN. -/
structure TimeHM where
  hour : Option Int
  minute : Int
deriving DecidableEq, Repr

/-- Model of the source's `parseTimeString` helper (supports "14:00" and
"2:00 PM" formats). -/
def parseTimeString (timeStr : String) : TimeHM :=
  let isPM := jsLowerIncludes timeStr "pm"
  let isAM := jsLowerIncludes timeStr "am"
  let cleanTime := trimChars (stripAmPmChars timeStr.data)
  let parts := splitColon cleanTime
  let hourStr := parts.headD []
  let minStr := parts[1]?
  let hour0 := jsParseIntChars hourStr
  let minute := (match minStr with
    | none => (none : Option Int)
    | some m => jsParseIntChars m).getD 0
  let hour :=
    if isPM ∧ hour0 ≠ some 12 then hour0.map (· + 12)
    else if isAM ∧ hour0 = some 12 then some 0
    else hour0
  ⟨hour, minute⟩

/-- NaN-respecting strict order on JavaScript numbers: any comparison with NaN
is false. -/
def jsLtB : Option Int → Option Int → Bool
  | some x, some y => decide (x < y)
  | _, _ => false

/-- NaN-respecting non-strict order on JavaScript numbers. -/
def jsLeB : Option Int → Option Int → Bool
  | some x, some y => decide (x ≤ y)
  | _, _ => false

/-- Model of expressions of the form
`parseInt(t.split(":")[0]) * 60 + parseInt(t.split(":")[1])` from the source;
`none` when the JavaScript value would be NaN. -/
def jsMinutes (t : String) : Option Int :=
  let parts := splitColon t.data
  match jsParseIntChars (parts.headD []), (parts[1]?).bind (fun p => jsParseIntChars p) with
  | some h, some m => some (h * 60 + m)
  | _, _ => none

/-- Model of the `timeRegex` pattern from the source,
`[0-1]?[0-9]|2[0-3]:[0-5][0-9]` anchored on both sides. -/
def timeRegexTest (s : String) : Bool :=
  let digit := fun (c : Char) => '0' ≤ c && c ≤ '9'
  match s.data with
  | [h1, ':', m1, m2] => digit h1 && ('0' ≤ m1 && m1 ≤ '5') && digit m2
  | [h1, h2, ':', m1, m2] =>
    ((h1 = '0' || h1 = '1') && digit h2 || (h1 = '2' && ('0' ≤ h2 && h2 ≤ '3'))) &&
      ('0' ≤ m1 && m1 ≤ '5') && digit m2
  | _ => false

/-- Model of `n.toString().padStart(2, "0")` on a JavaScript integer. -/
def jsPad2 (n : Int) : String :=
  let s := toString n
  if s.length < 2 then "0" ++ s else s

/-! ## Data model

Records mirror the Mongoose schemas: `BookingRec` follows
`models/booking.ts`, `Venue`/`SubVenue`/`OpHours` follow `models/venue.ts`,
and `TimeSlotRec` follows the TimeSlot schema (`models/timeSlot.ts`, found as
the second document of `src/models/deviceToken.ts`): venueId, spaceId, date,
startTime, endTime, price, isCustom, isActive, createdBy, with the document id.
Mongoose `timestamps` fields are omitted as no route reads them. -/

structure TimeSlotRec where
  id : String
  venueId : String
  spaceId : String
  date : String
  startTime : String
  endTime : String
  price : Int
  isCustom : Bool
  isActive : Bool
  createdBy : String
deriving DecidableEq, Repr

structure BookingRec where
  id : String
  venueId : String
  spaceId : String
  spaceName : String
  userId : String
  userName : String
  userEmail : String
  eventName : String
  date : String
  startTime : String
  endTime : String
  status : String
  notes : Option String
deriving DecidableEq, Repr

structure OpHours where
  «open» : String
  close : String
deriving DecidableEq, Repr

structure SubVenue where
  id : String
  name : String
  -- the schema field `type` (a Lean keyword)
  kind : String
  capacity : Option Int
deriving DecidableEq, Repr

/-- Weekday map of operating hours, `none` meaning closed that day. -/
structure OperatingHours where
  monday : Option OpHours
  tuesday : Option OpHours
  wednesday : Option OpHours
  thursday : Option OpHours
  friday : Option OpHours
  saturday : Option OpHours
  sunday : Option OpHours
deriving DecidableEq, Repr

/-- Lookup in the `dayNames` array order of the source
(`["sunday","monday",...,"saturday"]`, indexed by `Date.getDay()`). -/
def OperatingHours.byDay (oh : OperatingHours) : Nat → Option OpHours
  | 0 => oh.sunday
  | 1 => oh.monday
  | 2 => oh.tuesday
  | 3 => oh.wednesday
  | 4 => oh.thursday
  | 5 => oh.friday
  | 6 => oh.saturday
  | _ => none

structure Venue where
  id : String
  name : String
  subVenues : List SubVenue
  operatingHours : Option OperatingHours
deriving DecidableEq, Repr

structure UserRec where
  id : String
  name : String
  username : String
  email : String
  isAdmin : Bool
deriving DecidableEq, Repr

/-- The persistent store the routes read and write. -/
structure Store where
  venues : List Venue
  timeSlots : List TimeSlotRec
  bookings : List BookingRec
  users : List UserRec
deriving DecidableEq, Repr

/-! ## Slot generator -/

/-- A derived availability slot as assembled by `generateTimeSlots` and the
listing route (value object, never persisted as such). -/
structure GenSlot where
  id : String
  date : String
  startTime : String
  endTime : String
  available : Bool
  price : Int
  eventName : Option String
  bookedBy : Option String
  bookedByUsername : Option String
  bookingId : Option String
  isCustom : Bool
deriving DecidableEq, Repr

/-- Model of `x || null` on a string field of an optional record
(empty strings are falsy). -/
def jsOrNull (b : Option BookingRec) (f : BookingRec → String) : Option String :=
  match b with
  | none => none
  | some x => if f x = "" then none else some (f x)

/-- The integer list traversed by `for (let h = a; h < b; h++)`. -/
def intRangeTo (a b : Int) : List Int :=
  (List.range (b - a).toNat).map (fun i => a + (i : Int))

/-- Hour range of the generation loops; empty when either bound is NaN
(NaN comparisons are false, so the loop body never runs). -/
def hourLoop : Option Int → Option Int → List Int
  | some a, some b => intRangeTo a b
  | _, _ => []

/-- Effective open hour: round up to the next hour when the opening time has
nonzero minutes (`openTime.minute > 0 ? openTime.hour + 1 : openTime.hour`). -/
def effOpenHour (t : TimeHM) : Option Int :=
  if t.minute > 0 then t.hour.map (· + 1) else t.hour

/-- The `hasCustomOverlap` test inside `generateTimeSlots`: does any custom
slot for this date overlap the auto hour `[h*60, (h+1)*60)`? -/
def hasCustomOverlap (date : String) (customSlots : List TimeSlotRec) (hour : Int) : Bool :=
  customSlots.any (fun cs =>
    let csStart := jsMinutes cs.startTime
    let csEnd := jsMinutes cs.endTime
    let autoStart : Int := hour * 60
    let autoEnd : Int := (hour + 1) * 60
    cs.date == date && jsLtB csStart (some autoEnd) && jsLtB (some autoStart) csEnd)

/-- Model of the source's `generateTimeSlots` helper: hourly auto slots from
operating hours, skipping hours covered by a custom slot, annotated with
booking occupancy. -/
def generateTimeSlots (date : String) (operatingHours : Option OpHours)
    (existingBookings : List BookingRec) (customSlots : List TimeSlotRec) : List GenSlot :=
  match operatingHours with
  | none => []
  | some oh =>
    let openTime := parseTimeString oh.«open»
    let effectiveOpenHour := effOpenHour openTime
    let closeTime := parseTimeString oh.close
    let closeHour := closeTime.hour
    (hourLoop effectiveOpenHour closeHour).filterMap (fun hour =>
      let startTime := jsPad2 hour ++ ":00"
      let endTime := jsPad2 (hour + 1) ++ ":00"
      if hasCustomOverlap date customSlots hour then none
      else
        let booking := existingBookings.find? (fun b =>
          b.date == date && b.startTime == startTime && b.status != "cancelled")
        some { id := date ++ "-" ++ startTime
               date := date
               startTime := startTime
               endTime := endTime
               available := booking.isNone
               price := 150
               eventName := jsOrNull booking (·.eventName)
               bookedBy := jsOrNull booking (·.userId)
               bookedByUsername := jsOrNull booking (·.userName)
               bookingId := jsOrNull booking (·.id)
               isCustom := false })

/-! ## Overlap checker -/

/-- Model of the source's `checkSlotOverlap` helper: does the candidate
interval overlap any other active slot for the same (venueId, spaceId, date)?
`excludeSlotId` mirrors the optional `_id: { $ne: excludeSlotId }` filter
(an empty string is falsy and disables the filter, as in JavaScript). -/
def checkSlotOverlap (slots : List TimeSlotRec) (venueId spaceId date startTime endTime : String)
    (excludeSlotId : Option String) : Bool :=
  let startMinutes := jsMinutes startTime
  let endMinutes := jsMinutes endTime
  let existingSlots := slots.filter (fun s =>
    s.venueId == venueId && s.spaceId == spaceId && s.date == date && s.isActive &&
      (match excludeSlotId with
       | none => true
       | some e => if e = "" then true else s.id != e))
  existingSlots.any (fun slot =>
    let slotStart := jsMinutes slot.startTime
    let slotEnd := jsMinutes slot.endTime
    jsLtB startMinutes slotEnd && jsLtB slotStart endMinutes)

/-! ## Calendar dates

The generate-slots route iterates JavaScript `Date`s built from `YYYY-MM-DD`
strings (UTC midnight; the process runs with a UTC clock, so `getDay` and
`toISOString` agree). Dates are modelled as days since the Unix epoch. -/

def isLeapYear (y : Int) : Bool :=
  (y % 4 == 0 && y % 100 != 0) || y % 400 == 0

def daysInMonth (y m : Int) : Int :=
  if m = 2 then (if isLeapYear y then 29 else 28)
  else if m = 4 ∨ m = 6 ∨ m = 9 ∨ m = 11 then 30
  else 31

/-- Civil date to days since 1970-01-01 (Gregorian). -/
def daysFromCivil (y m d : Int) : Int :=
  let y1 := if m ≤ 2 then y - 1 else y
  let era := (if 0 ≤ y1 then y1 else y1 - 399) / 400
  let yoe := y1 - era * 400
  let mp := if 2 < m then m - 3 else m + 9
  let doy := (153 * mp + 2) / 5 + d - 1
  let doe := yoe * 365 + yoe / 4 - yoe / 100 + doy
  era * 146097 + doe - 719468

/-- Days since the epoch back to a civil (year, month, day) triple. -/
def civilFromDays (z : Int) : Int × Int × Int :=
  let z1 := z + 719468
  let era := (if 0 ≤ z1 then z1 else z1 - 146096) / 146097
  let doe := z1 - era * 146097
  let yoe := (doe - doe / 1460 + doe / 36524 - doe / 146096) / 365
  let y := yoe + era * 400
  let doy := doe - (365 * yoe + yoe / 4 - yoe / 100)
  let mp := (5 * doy + 2) / 153
  let d := doy - (153 * mp + 2) / 5 + 1
  let m := if mp < 10 then mp + 3 else mp - 9
  (if m ≤ 2 then y + 1 else y, m, d)

/-- Two-digit zero padding of date components. -/
def pad2Dig (n : Int) : String :=
  if n < 10 then "0" ++ toString n else toString n

/-- Four-digit zero padding of years. -/
def pad4Dig (n : Int) : String :=
  if n < 10 then "000" ++ toString n
  else if n < 100 then "00" ++ toString n
  else if n < 1000 then "0" ++ toString n
  else toString n

/-- The `d.toISOString().split("T")[0]` date string of an epoch day. -/
def isoOfDays (z : Int) : String :=
  let c := civilFromDays z
  pad4Dig c.1 ++ "-" ++ pad2Dig c.2.1 ++ "-" ++ pad2Dig c.2.2

/-- `Date.prototype.getDay` for an epoch day (1970-01-01 was a Thursday). -/
def weekdayOfDays (z : Int) : Nat :=
  ((z + 4) % 7).toNat

/-- Parse a strict `YYYY-MM-DD` string to an epoch day; `none` is the Invalid
Date that JavaScript produces for malformed or out-of-range ISO strings. -/
def parseIsoDate (s : String) : Option Int :=
  match s.data with
  | [y1, y2, y3, y4, '-', m1, m2, '-', d1, d2] =>
    match parseDigits [y1, y2, y3, y4], parseDigits [m1, m2], parseDigits [d1, d2] with
    | some y, some m, some d =>
      if 1 ≤ m ∧ m ≤ 12 ∧ 1 ≤ d ∧ (d : Int) ≤ daysInMonth y m then
        some (daysFromCivil y m d)
      else none
    | _, _, _ => none
  | _ => none

/-- The epoch days visited by
`for (let d = new Date(start); d <= end; d.setDate(d.getDate() + 1))`. -/
def dateRangeDays (a b : Int) : List Int :=
  (List.range (b - a + 1).toNat).map (fun i => a + (i : Int))

/-! ## Persistence primitives -/

/-- The unique key `(venueId, spaceId, date, startTime)` both collections are
indexed on. -/
def sameSlotKey (venueId spaceId date startTime : String) (t : TimeSlotRec) : Bool :=
  t.venueId == venueId && t.spaceId == spaceId && t.date == date && t.startTime == startTime

def sameBookingKey (venueId spaceId date startTime : String) (b : BookingRec) : Bool :=
  b.venueId == venueId && b.spaceId == spaceId && b.date == date && b.startTime == startTime

/-- `TimeSlot.create` under the TimeSlot schema (`models/timeSlot.ts`, found as
the second document of `src/models/deviceToken.ts` lines 42-87): the schema
declares `TimeSlotSchema.index({venueId: 1, spaceId: 1, date: 1, startTime: 1},
{unique: true})` with no partial filter, so creation raises a duplicate-key
error (Mongo code 11000) exactly when that key is already present, and
otherwise appends the document. The routes pass every schema field explicitly,
so the schema defaults (price 150, isCustom true, isActive true) never fire. -/
def timeSlotCreate (slots : List TimeSlotRec) (t : TimeSlotRec) :
    Except Nat (List TimeSlotRec) :=
  if slots.any (sameSlotKey t.venueId t.spaceId t.date t.startTime) then .error 11000
  else .ok (slots ++ [t])

/-- `Booking.create` under the unique compound index of `models/booking.ts`
(which covers documents of every status, cancelled included): duplicate-key
error 11000 when the key is taken, append otherwise. -/
def bookingCreate (bookings : List BookingRec) (b : BookingRec) :
    Except Nat (List BookingRec) :=
  if bookings.any (sameBookingKey b.venueId b.spaceId b.date b.startTime) then .error 11000
  else .ok (bookings ++ [b])

/-- Saving an updated TimeSlot document under the same unique compound index of
the TimeSlot schema (`src/models/deviceToken.ts` lines 74-77): the index is
enforced against every other document, so a collision on (venueId, spaceId,
date, startTime) raises a duplicate-key error (caught by the route's generic
handler), and otherwise the document is replaced in place. -/
def timeSlotSave (slots : List TimeSlotRec) (t : TimeSlotRec) :
    Except Nat (List TimeSlotRec) :=
  if slots.any (fun s => s.id != t.id && sameSlotKey t.venueId t.spaceId t.date t.startTime s) then
    .error 11000
  else .ok (slots.map (fun s => if s.id = t.id then t else s))

/-! ## Routes

Each route is modelled as a function from the store and the request to an HTTP
status, a payload, and the store after the request. Authentication middleware
(`requireAdmin`) is outside the claims; admin routes are modelled from the
point where the middleware has passed, with the principal's user id as the
`user` parameter. Fresh Mongo object ids are supplied as arguments. -/

/-- Model of `startTime || existingSlot.startTime`: an absent or empty field
falls back to the stored value. -/
def jsOrDefault (v : Option String) (d : String) : String :=
  match v with
  | none => d
  | some s => if s = "" then d else s

/-- Truthiness of an optional string request field. -/
def jsTruthy (v : Option String) : Bool :=
  match v with
  | none => false
  | some s => s != ""

def findVenue (st : Store) (venueId : String) : Option Venue :=
  st.venues.find? (fun v => v.id == venueId)

def findSpace (v : Venue) (spaceId : String) : Option SubVenue :=
  v.subVenues.find? (fun s => s.id == spaceId)

/-- Response of the custom-slot create/update routes: HTTP status plus the
slot payload on success. -/
structure SlotResp where
  status : Nat
  slot : Option TimeSlotRec
deriving DecidableEq, Repr

/-- The TimeSlot document the create route persists. -/
def newCustomSlot (venueId spaceId date startTime endTime : String) (price : Option Int)
    (userId newId : String) : TimeSlotRec :=
  { id := newId, venueId := venueId, spaceId := spaceId, date := date
    startTime := startTime, endTime := endTime
    price := match price with | none => 150 | some p => if p = 0 then 150 else p
    isCustom := true, isActive := true, createdBy := userId }

/-- Model of `POST /api/venues/:venueId/spaces/:spaceId/slots` (admin), after
`requireAdmin` has passed. -/
def createCustomSlot (st : Store) (venueId spaceId : String)
    (date startTime endTime : String) (price : Option Int)
    (userId newId : String) : SlotResp × Store :=
  if date = "" ∨ startTime = "" ∨ endTime = "" then (⟨400, none⟩, st)
  else if ¬ (timeRegexTest startTime ∧ timeRegexTest endTime) then (⟨400, none⟩, st)
  else
    let startMinutes := jsMinutes startTime
    let endMinutes := jsMinutes endTime
    -- endMinutes <= startMinutes (false on NaN)
    if jsLeB endMinutes startMinutes then
      (⟨400, none⟩, st)
    else
      match findVenue st venueId with
      | none => (⟨404, none⟩, st)
      | some venue =>
        match findSpace venue spaceId with
        | none => (⟨404, none⟩, st)
        | some _ =>
          if checkSlotOverlap st.timeSlots venueId spaceId date startTime endTime none then
            (⟨409, none⟩, st)
          else
            let slot := newCustomSlot venueId spaceId date startTime endTime price
              userId newId
            match timeSlotCreate st.timeSlots slot with
            | .error _ => (⟨409, none⟩, st)
            | .ok slots => (⟨201, some slot⟩, { st with timeSlots := slots })

/-- The updated document the update route saves: provided fields replace the
stored ones, `price !== undefined` sets the price. -/
def updatedSlot (ex : TimeSlotRec) (date startTime endTime : Option String)
    (price : Option Int) : TimeSlotRec :=
  { ex with
    date := jsOrDefault date ex.date
    startTime := jsOrDefault startTime ex.startTime
    endTime := jsOrDefault endTime ex.endTime
    price := match price with | none => ex.price | some p => p }

/-- Model of `PUT /api/venues/:venueId/spaces/:spaceId/slots/:slotId` (admin),
after `requireAdmin` has passed. -/
def updateCustomSlot (st : Store) (venueId spaceId slotId : String)
    (date startTime endTime : Option String) (price : Option Int) : SlotResp × Store :=
  match st.timeSlots.find? (fun s => s.id == slotId && s.venueId == venueId && s.spaceId == spaceId) with
  | none => (⟨404, none⟩, st)
  | some existingSlot =>
    if jsTruthy startTime ∧ ¬ timeRegexTest (jsOrDefault startTime "") then (⟨400, none⟩, st)
    else if jsTruthy endTime ∧ ¬ timeRegexTest (jsOrDefault endTime "") then (⟨400, none⟩, st)
    else
      let newStartTime := jsOrDefault startTime existingSlot.startTime
      let newEndTime := jsOrDefault endTime existingSlot.endTime
      let newDate := jsOrDefault date existingSlot.date
      let startMinutes := jsMinutes newStartTime
      let endMinutes := jsMinutes newEndTime
      if jsLeB endMinutes startMinutes then
        (⟨400, none⟩, st)
      else if checkSlotOverlap st.timeSlots venueId spaceId newDate newStartTime newEndTime
          (some slotId) then
        (⟨409, none⟩, st)
      else
        let booking := st.bookings.find? (fun b =>
          b.venueId == venueId && b.spaceId == spaceId && b.date == existingSlot.date &&
            b.startTime == existingSlot.startTime && b.status != "cancelled")
        if booking.isSome ∧
            (newStartTime ≠ existingSlot.startTime ∨ newEndTime ≠ existingSlot.endTime ∨
              newDate ≠ existingSlot.date) then
          (⟨409, none⟩, st)
        else
          let updated := updatedSlot existingSlot date startTime endTime price
          match timeSlotSave st.timeSlots updated with
          | .error _ => (⟨500, none⟩, st)
          | .ok slots => (⟨200, some updated⟩, { st with timeSlots := slots })

/-! ## Bulk generate-slots route -/

/-- A created-slot summary entry (`{id, date, startTime, endTime, price}`). -/
structure CreatedEntry where
  id : String
  date : String
  startTime : String
  endTime : String
  price : Int
deriving DecidableEq, Repr

/-- A skipped-slot entry (`{date, startTime, endTime}`). -/
structure SkippedEntry where
  date : String
  startTime : String
  endTime : String
deriving DecidableEq, Repr

/-- Accumulator of the generation loops: created entries, skipped entries, and
the TimeSlot collection as it stands. -/
structure GenAcc where
  created : List CreatedEntry
  skipped : List SkippedEntry
  slots : List TimeSlotRec
deriving DecidableEq, Repr

/-- The TimeSlot document one `(dateStr, hour)` attempt of the generation
loop would persist. -/
def attSlot (venueId spaceId userId : String) (price : Option Int)
    (idGen : String → String → String) (att : String × Int) : TimeSlotRec :=
  { id := idGen att.1 (jsPad2 att.2 ++ ":00"), venueId := venueId, spaceId := spaceId
    date := att.1, startTime := jsPad2 att.2 ++ ":00", endTime := jsPad2 (att.2 + 1) ++ ":00"
    price := match price with | none => 150 | some p => if p = 0 then 150 else p
    isCustom := false, isActive := true, createdBy := userId }

/-- The `(date, startTime)` part of an attempt's uniqueness key. -/
def attKey (att : String × Int) : String × String :=
  (att.1, jsPad2 att.2 ++ ":00")

/-- Is an attempt's uniqueness key already present in the collection? -/
def keyTaken (slots : List TimeSlotRec) (venueId spaceId : String) (att : String × Int) : Bool :=
  slots.any (sameSlotKey venueId spaceId att.1 (jsPad2 att.2 ++ ":00"))

/-- The created-summary entry of a successful attempt. -/
def attCreated (venueId spaceId userId : String) (price : Option Int)
    (idGen : String → String → String) (att : String × Int) : CreatedEntry :=
  let slot := attSlot venueId spaceId userId price idGen att
  ⟨slot.id, att.1, slot.startTime, slot.endTime, slot.price⟩

/-- The skipped-summary entry of a duplicate attempt. -/
def attSkipped (att : String × Int) : SkippedEntry :=
  ⟨att.1, jsPad2 att.2 ++ ":00", jsPad2 (att.2 + 1) ++ ":00"⟩

/-- One iteration of the inner hour loop of the generate-slots route: try to
create the slot, catching the duplicate-key error as a skip. -/
def genStep (venueId spaceId userId : String) (price : Option Int)
    (idGen : String → String → String) (acc : GenAcc) (att : String × Int) : GenAcc :=
  let slot := attSlot venueId spaceId userId price idGen att
  match timeSlotCreate acc.slots slot with
  | .ok slots =>
    { acc with
      created := acc.created ++ [attCreated venueId spaceId userId price idGen att]
      slots := slots }
  | .error _ =>
    { acc with skipped := acc.skipped ++ [attSkipped att] }

/-- The `(dateStr, hour)` pairs the generation loops attempt for one epoch
day, given the venue's operating hours for its weekday. -/
def dayAttempts (oh : OperatingHours) (z : Int) : List (String × Int) :=
  match oh.byDay (weekdayOfDays z) with
  | none => []
  | some hrs =>
    let openTime := parseTimeString hrs.«open»
    let closeTime := parseTimeString hrs.close
    (hourLoop (effOpenHour openTime) closeTime.hour).map (fun h => (isoOfDays z, h))

/-- Response of the generate-slots route. -/
structure GenResp where
  status : Nat
  created : Nat
  skipped : Nat
  slots : List CreatedEntry
deriving DecidableEq, Repr

/-- The epoch days visited by the route's date loop, with the "next 14 days"
defaults; an invalid (NaN) bound makes the `d <= end` loop guard false. -/
def genDays (startDate endDate : Option String) (nowDays : Int) : List Int :=
  let startDay : Option Int :=
    match startDate with
    | none => some nowDays
    | some s => if s = "" then some nowDays else parseIsoDate s
  let endDay : Option Int :=
    match endDate with
    | none => some (nowDays + 14)
    | some s => if s = "" then some (nowDays + 14) else parseIsoDate s
  match startDay, endDay with
  | some a, some b => dateRangeDays a b
  | _, _ => []

/-- Model of `POST /api/venues/:venueId/spaces/:spaceId/generate-slots`
(admin), after `requireAdmin` has passed. `nowDays` is today's epoch day, used
for the defaults when the body omits the date range. -/
def generateSlotsRoute (st : Store) (venueId spaceId : String)
    (startDate endDate : Option String) (price : Option Int)
    (userId : String) (idGen : String → String → String) (nowDays : Int) :
    GenResp × Store :=
  match findVenue st venueId with
  | none => (⟨404, 0, 0, []⟩, st)
  | some venue =>
    match findSpace venue spaceId with
    | none => (⟨404, 0, 0, []⟩, st)
    | some _ =>
      match venue.operatingHours with
      | none => (⟨400, 0, 0, []⟩, st)
      | some oh =>
        let atts := (genDays startDate endDate nowDays).flatMap (dayAttempts oh)
        let acc := atts.foldl (genStep venueId spaceId userId price idGen)
          ⟨[], [], st.timeSlots⟩
        (⟨201, acc.created.length, acc.skipped.length, acc.created⟩,
          { st with timeSlots := acc.slots })

/-! ## Booking routes -/

structure BookResp where
  status : Nat
  booking : Option BookingRec
deriving DecidableEq, Repr

/-- Model of `POST /api/venues/:venueId/spaces/:spaceId/book`. `principal` is
the authenticated user id, `none` when unauthenticated. -/
def createBookingRoute (st : Store) (venueId spaceId : String)
    (date startTime endTime eventName : String) (notes : Option String)
    (principal : Option String) (newId : String) : BookResp × Store :=
  match principal with
  | none => (⟨401, none⟩, st)
  | some uid =>
    if date = "" ∨ startTime = "" ∨ endTime = "" ∨ eventName = "" then (⟨400, none⟩, st)
    else
      match findVenue st venueId with
      | none => (⟨404, none⟩, st)
      | some venue =>
        match findSpace venue spaceId with
        | none => (⟨404, none⟩, st)
        | some space =>
          match st.users.find? (fun u => u.id == uid) with
          | none => (⟨401, none⟩, st)
          | some dbUser =>
            let existingBooking := st.bookings.find? (fun b =>
              b.venueId == venueId && b.spaceId == spaceId && b.date == date &&
                b.startTime == startTime && b.status != "cancelled")
            if existingBooking.isSome then (⟨409, none⟩, st)
            else
              let booking : BookingRec :=
                { id := newId, venueId := venueId, spaceId := spaceId
                  spaceName := space.name, userId := uid
                  userName := if dbUser.name = "" then dbUser.username else dbUser.name
                  userEmail := dbUser.email, eventName := eventName
                  date := date, startTime := startTime, endTime := endTime
                  status := "pending", notes := notes }
              match bookingCreate st.bookings booking with
              | .error _ => (⟨409, none⟩, st)
              | .ok bookings => (⟨201, some booking⟩, { st with bookings := bookings })

/-- Model of `PATCH /api/bookings/:id/cancel`: hard-deletes the booking when
the requester owns it or is an administrator. -/
def cancelBookingRoute (st : Store) (bookingId : String) (principal : Option String) :
    Nat × Store :=
  match principal with
  | none => (401, st)
  | some uid =>
    match st.bookings.find? (fun b => b.id == bookingId) with
    | none => (404, st)
    | some booking =>
      let allowed :=
        if booking.userId = uid then true
        else
          match st.users.find? (fun u => u.id == uid) with
          | none => false
          | some dbUser => dbUser.isAdmin
      if allowed then
        (200, { st with bookings := st.bookings.filter (fun b => b.id != bookingId) })
      else (403, st)

/-- The per-document effect of `findByIdAndUpdate(id, { status })`. -/
def setStatus (bookingId status : String) (b : BookingRec) : BookingRec :=
  if b.id = bookingId then { b with status := status } else b

/-- Model of `PATCH /api/bookings/:id/status` (admin), after `requireAdmin`
has passed: validates the status value and updates the record in place. -/
def updateBookingStatusRoute (st : Store) (bookingId status : String) : Nat × Store :=
  if ¬ (status = "pending" ∨ status = "confirmed" ∨ status = "cancelled") then (400, st)
  else
    match st.bookings.find? (fun b => b.id == bookingId) with
    | none => (404, st)
    | some _ =>
      (200, { st with bookings := st.bookings.map (setStatus bookingId status) })

/-! ## Invariants and claim-side predicates -/

/-- Do two stored slots violate the no-overlap rule: both active, same
(venueId, spaceId, date), and minute intervals intersecting? -/
def slotConflictB (a b : TimeSlotRec) : Bool :=
  a.isActive && b.isActive && a.venueId == b.venueId && a.spaceId == b.spaceId &&
    a.date == b.date &&
    jsLtB (jsMinutes a.startTime) (jsMinutes b.endTime) &&
    jsLtB (jsMinutes b.startTime) (jsMinutes a.endTime)

/-- The spec's no-overlap invariant on the TimeSlot collection. -/
def noOverlapInv (slots : List TimeSlotRec) : Prop :=
  slots.Pairwise (fun a b => slotConflictB a b = false)

/-- The two slot-mutating single-record operations (custom-slot create and
update); the bulk generate operation is `generateSlotsRoute`. -/
inductive SlotOp where
  | createOp (venueId spaceId date startTime endTime : String) (price : Option Int)
      (userId newId : String)
  | updateOp (venueId spaceId slotId : String) (date startTime endTime : Option String)
      (price : Option Int)

def applySlotOp (st : Store) : SlotOp → SlotResp × Store
  | .createOp venueId spaceId date startTime endTime price userId newId =>
    createCustomSlot st venueId spaceId date startTime endTime price userId newId
  | .updateOp venueId spaceId slotId date startTime endTime price =>
    updateCustomSlot st venueId spaceId slotId date startTime endTime price

/-- The operation has passed validation and lookups, and its committed record
would overlap an existing active slot of the same (venueId, spaceId, date):
the situation the spec requires to be answered with Conflict. -/
def wouldIntroduceOverlap (st : Store) : SlotOp → Prop
  | .createOp venueId spaceId date startTime endTime _ _ _ =>
    ¬ (date = "" ∨ startTime = "" ∨ endTime = "") ∧
    (timeRegexTest startTime ∧ timeRegexTest endTime) ∧
    jsLeB (jsMinutes endTime) (jsMinutes startTime) = false ∧
    (∃ v, findVenue st venueId = some v ∧ (findSpace v spaceId).isSome) ∧
    checkSlotOverlap st.timeSlots venueId spaceId date startTime endTime none = true
  | .updateOp venueId spaceId slotId date startTime endTime _ =>
    ∃ ex, st.timeSlots.find? (fun s =>
        s.id == slotId && s.venueId == venueId && s.spaceId == spaceId) = some ex ∧
      ¬ (jsTruthy startTime ∧ ¬ timeRegexTest (jsOrDefault startTime "")) ∧
      ¬ (jsTruthy endTime ∧ ¬ timeRegexTest (jsOrDefault endTime "")) ∧
      jsLeB (jsMinutes (jsOrDefault endTime ex.endTime))
        (jsMinutes (jsOrDefault startTime ex.startTime)) = false ∧
      checkSlotOverlap st.timeSlots venueId spaceId (jsOrDefault date ex.date)
        (jsOrDefault startTime ex.startTime) (jsOrDefault endTime ex.endTime)
        (some slotId) = true

/-- Claim-side predicate of C5: some custom slot for this date has a minute
interval that intersects the auto-generated hour `[hr*60, (hr+1)*60)`. -/
def customCoversHour (date : String) (customSlots : List TimeSlotRec) (hr : Int) : Prop :=
  ∃ cs ∈ customSlots, cs.date = date ∧ ∃ s e,
    jsMinutes cs.startTime = some s ∧ jsMinutes cs.endTime = some e ∧
    s < (hr + 1) * 60 ∧ hr * 60 < e

theorem jsLtB_some_left {x : Int} {o : Option Int} :
    jsLtB (some x) o = true ↔ ∃ y, o = some y ∧ x < y := by
  cases o <;> simp [jsLtB]

theorem jsLtB_some_right {y : Int} {o : Option Int} :
    jsLtB o (some y) = true ↔ ∃ x, o = some x ∧ x < y := by
  cases o <;> simp [jsLtB]

theorem hasCustomOverlap_iff (date : String) (customSlots : List TimeSlotRec) (hr : Int) :
    hasCustomOverlap date customSlots hr = true ↔ customCoversHour date customSlots hr := by
  simp only [hasCustomOverlap, customCoversHour, List.any_eq_true, Bool.and_eq_true,
    beq_iff_eq, jsLtB_some_left, jsLtB_some_right]
  constructor
  · rintro ⟨cs, hmem, ⟨hdate, s, hs, hlt⟩, e, he, hgt⟩
    exact ⟨cs, hmem, hdate, s, e, hs, he, hlt, hgt⟩
  · rintro ⟨cs, hmem, hdate, s, e, hs, he, hlt, hgt⟩
    exact ⟨cs, hmem, ⟨hdate, s, hs, hlt⟩, e, he, hgt⟩

instance (date : String) (customSlots : List TimeSlotRec) (hr : Int) :
    Decidable (customCoversHour date customSlots hr) :=
  decidable_of_iff _ (hasCustomOverlap_iff date customSlots hr)

/-! ## Spec-side input builders and concrete fixtures -/

/-- Canonical two-digit minute rendering used to build claim inputs. -/
def minutePad (n : Nat) : String :=
  if n < 10 then "0" ++ toString n else toString n

/-- A well-formed 12-hour clock input "H:MM AM" / "H:MM PM". -/
def mkTime12 (h m : Nat) (suffix : String) : String :=
  toString h ++ ":" ++ minutePad m ++ " " ++ suffix

def spaceFix : SubVenue :=
  { id := "s1", name := "Court A", kind := "court", capacity := some 10 }

/-- A venue open Mondays 09:00–17:00 with one space. -/
def vFix : Venue :=
  { id := "v1", name := "Court Club"
    subVenues := [spaceFix]
    operatingHours := some
      { monday := some ⟨"09:00", "17:00"⟩
        tuesday := none, wednesday := none, thursday := none
        friday := none, saturday := none, sunday := none } }

def uFix : UserRec := { id := "u1", name := "Pat", username := "pat", email := "p@x.io", isAdmin := false }

def adminFix : UserRec := { id := "u9", name := "Ada", username := "ada", email := "a@x.io", isAdmin := true }

/-- An active custom slot 14:00–15:00 on Monday 2024-01-08. -/
def slotFix : TimeSlotRec :=
  { id := "t1", venueId := "v1", spaceId := "s1", date := "2024-01-08"
    startTime := "14:00", endTime := "15:00", price := 150
    isCustom := true, isActive := true, createdBy := "u9" }

/-- An active custom slot 09:30–10:30 on Monday 2024-01-01. -/
def slotHalfFix : TimeSlotRec :=
  { id := "t2", venueId := "v1", spaceId := "s1", date := "2024-01-01"
    startTime := "09:30", endTime := "10:30", price := 100
    isCustom := true, isActive := true, createdBy := "u9" }

/-- Store with the 14:00–15:00 custom slot in place. -/
def storeSlotFix : Store :=
  { venues := [vFix], timeSlots := [slotFix], bookings := [], users := [adminFix] }

/-- A cancelled booking occupying 10:00 on Monday 2024-01-08. -/
def cancelledBookingFix : BookingRec :=
  { id := "b1", venueId := "v1", spaceId := "s1", spaceName := "Court A"
    userId := "u1", userName := "Pat", userEmail := "p@x.io"
    eventName := "Scrimmage", date := "2024-01-08", startTime := "10:00"
    endTime := "11:00", status := "cancelled", notes := none }

/-- Store with the venue and the admin only. -/
def storeAdminFix : Store :=
  { venues := [vFix], timeSlots := [], bookings := [], users := [adminFix] }

/-- Store holding only a cancelled booking at 10:00 on 2024-01-08. -/
def storeCancelledFix : Store :=
  { venues := [vFix], timeSlots := [], bookings := [cancelledBookingFix], users := [uFix] }

/-- Store with the venue and a user but no bookings or slots. -/
def storeEmptyFix : Store :=
  { venues := [vFix], timeSlots := [], bookings := [], users := [uFix] }

/-- A pending booking occupying 10:00 on Monday 2024-01-08. -/
def pendingBookingFix : BookingRec :=
  { id := "b1", venueId := "v1", spaceId := "s1", spaceName := "Court A"
    userId := "u1", userName := "Pat", userEmail := "p@x.io"
    eventName := "Scrimmage", date := "2024-01-08", startTime := "10:00"
    endTime := "11:00", status := "pending", notes := none }

/-- Store holding that pending booking. -/
def storePendingFix : Store :=
  { venues := [vFix], timeSlots := [], bookings := [pendingBookingFix], users := [uFix] }

/-- A confirmed booking occupying the 14:00 custom slot's key. -/
def bookedSlotBookingFix : BookingRec :=
  { id := "b3", venueId := "v1", spaceId := "s1", spaceName := "Court A"
    userId := "u1", userName := "Pat", userEmail := "p@x.io"
    eventName := "Final", date := "2024-01-08", startTime := "14:00"
    endTime := "15:00", status := "confirmed", notes := none }

/-- Store with the 14:00–15:00 custom slot and a confirmed booking on it. -/
def storeBookedSlotFix : Store :=
  { venues := [vFix], timeSlots := [slotFix], bookings := [bookedSlotBookingFix]
    users := [uFix] }

/-! ## Theorems -/

set_option maxRecDepth 100000

/-- C6: the time parser maps "2:00 PM" to hour 14, "12:00 AM" to hour 0 and
"12:30 PM" to hour 12 minute 30; in general, for well-formed "H:MM" inputs,
PM hours 1–11 gain 12, hour 12 PM stays 12, hour 12 AM becomes 0, and every
other AM hour (0–11) passes through unchanged. -/
theorem c6_am_pm_parsing :
    parseTimeString "2:00 PM" = ⟨some 14, 0⟩ ∧
    parseTimeString "12:00 AM" = ⟨some 0, 0⟩ ∧
    parseTimeString "12:30 PM" = ⟨some 12, 30⟩ ∧
    (∀ h : Nat, h < 12 → 1 ≤ h → ∀ m : Nat, m < 60 →
      parseTimeString (mkTime12 h m "PM") = ⟨some ((h : Int) + 12), (m : Int)⟩) ∧
    (∀ m : Nat, m < 60 → parseTimeString (mkTime12 12 m "PM") = ⟨some 12, (m : Int)⟩) ∧
    (∀ m : Nat, m < 60 → parseTimeString (mkTime12 12 m "AM") = ⟨some 0, (m : Int)⟩) ∧
    (∀ h : Nat, h < 12 → ∀ m : Nat, m < 60 →
      parseTimeString (mkTime12 h m "AM") = ⟨some (h : Int), (m : Int)⟩) := by
  refine ⟨by decide, by decide, by decide, by decide, by decide, by decide, by decide⟩

/-- Closed instance of C6's quantified parts: "2:00 PM" parses to 14:00 via
the general PM rule. -/
theorem c6_am_pm_parsing_witness :
    parseTimeString (mkTime12 2 0 "PM") = ⟨some 14, 0⟩ :=
  c6_am_pm_parsing.2.2.2.1 2 (by decide) (by decide) 0 (by decide)

/-- A body of the form `if p a then none else some (f a)` makes `filterMap`
a filter followed by a map. -/
theorem filterMap_if_none {α β} (p : α → Bool) (f : α → β) :
    ∀ l : List α,
      l.filterMap (fun a => if p a then none else some (f a)) =
        (l.filter (fun a => !p a)).map f
  | [] => rfl
  | a :: l => by
    by_cases h : p a = true <;>
      simp [List.filterMap_cons, List.filter_cons, h, filterMap_if_none p f l]

/-- A `filterMap` whose body always succeeds is a `map`. -/
theorem filterMap_some_comp {α β} (f : α → β) :
    ∀ l : List α, l.filterMap (fun a => some (f a)) = l.map f
  | [] => rfl
  | a :: l => by simp [List.filterMap_cons, filterMap_some_comp f l]

/-- Searching a mapped list with a predicate the map does not disturb finds
the image of the original hit. -/
theorem find?_map_pred_comm {α} (f : α → α) (p : α → Bool) (hp : ∀ x, p (f x) = p x) :
    ∀ l : List α, (l.map f).find? p = (l.find? p).map f
  | [] => rfl
  | a :: l => by
    by_cases h : p a = true
    · simp [List.find?_cons, hp a, h]
    · have h' : p a = false := by revert h; cases p a <;> simp
      simp [List.find?_cons, hp a, h', find?_map_pred_comm f p hp l]

/-- C7: on an input with no AM/PM marker and no colon-separated numeric pair
the parser does NOT raise a parse error: it silently returns hour NaN
(modelled `none`) and minute 0. The spec requires a `ParseError` here and
flags the observed silent default as a latent bug, so this records the code's
divergence at the failing inputs. -/
theorem c7_silent_default_instead_of_error :
    parseTimeString "banana" = ⟨none, 0⟩ ∧ parseTimeString "" = ⟨none, 0⟩ ∧
    parseTimeString "noon" = ⟨none, 0⟩ := by
  refine ⟨by decide, by decide, by decide⟩

/-- C3: with operating hours 09:30–17:00, no custom slots and no bookings,
the generator yields exactly the seven hourly slots 10:00–11:00 through
16:00–17:00; in general (with no custom slots) it yields one 60-minute slot
per integer hour from the rounded-up effective open hour up to (excluding)
the unrounded close hour. -/
theorem c3_rounding_boundary (date : String) (oh : OpHours) (bookings : List BookingRec)
    (h1 m1 h2 : Int)
    (hOpen : parseTimeString oh.«open» = ⟨some h1, m1⟩)
    (hClose : (parseTimeString oh.close).hour = some h2) :
    ((generateTimeSlots "2024-01-08" (some ⟨"09:30", "17:00"⟩) [] []).map
        (fun s => (s.startTime, s.endTime)) =
      [("10:00", "11:00"), ("11:00", "12:00"), ("12:00", "13:00"), ("13:00", "14:00"),
       ("14:00", "15:00"), ("15:00", "16:00"), ("16:00", "17:00")]) ∧
    ((generateTimeSlots date (some oh) bookings []).map (fun s => (s.startTime, s.endTime)) =
      (intRangeTo (if 0 < m1 then h1 + 1 else h1) h2).map
        (fun hr => (jsPad2 hr ++ ":00", jsPad2 (hr + 1) ++ ":00"))) := by
  constructor
  · decide
  · simp only [generateTimeSlots, hOpen, hClose, effOpenHour, hasCustomOverlap, List.any_nil,
      Bool.false_eq_true, if_false]
    rw [filterMap_some_comp, List.map_map]
    by_cases hm : (0 : Int) < m1 <;> simp [hm, hourLoop]

/-- Closed instance of C3: the 09:30–17:00 boundary case itself, through the
general rounding rule. -/
theorem c3_rounding_boundary_witness :
    (generateTimeSlots "2024-01-08" (some ⟨"09:30", "17:00"⟩) [] []).map
        (fun s => (s.startTime, s.endTime)) =
      (intRangeTo 10 17).map (fun hr => (jsPad2 hr ++ ":00", jsPad2 (hr + 1) ++ ":00")) := by
  have h := (c3_rounding_boundary "2024-01-08" ⟨"09:30", "17:00"⟩ [] 9 30 17
    (by decide) (by decide)).2
  simpa using h

/-- C5: an auto-generated hourly slot appears in the generator's output
exactly for the in-range hours whose interval `[h*60, (h+1)*60)` is NOT
intersected by any custom slot of the same date: the output's start times are
the filtered hour range, so an hour covered by a custom slot never appears. -/
theorem c5_custom_precedence (date : String) (oh : OpHours) (bookings : List BookingRec)
    (customSlots : List TimeSlotRec) (h1 m1 h2 : Int)
    (hOpen : parseTimeString oh.«open» = ⟨some h1, m1⟩)
    (hClose : (parseTimeString oh.close).hour = some h2) :
    (generateTimeSlots date (some oh) bookings customSlots).map (fun s => s.startTime) =
      ((intRangeTo (if 0 < m1 then h1 + 1 else h1) h2).filter
        (fun hr => decide (¬ customCoversHour date customSlots hr))).map
        (fun hr => jsPad2 hr ++ ":00") := by
  have hpt : ∀ hr : Int, (!hasCustomOverlap date customSlots hr) =
      decide (¬ customCoversHour date customSlots hr) := by
    intro hr
    by_cases hc : customCoversHour date customSlots hr
    · simp [hc, (hasCustomOverlap_iff date customSlots hr).mpr hc]
    · have : hasCustomOverlap date customSlots hr = false := by
        rcases Bool.eq_false_or_eq_true (hasCustomOverlap date customSlots hr) with h | h
        · exact absurd ((hasCustomOverlap_iff date customSlots hr).mp h) hc
        · exact h
      simp [hc, this]
  simp only [generateTimeSlots, hOpen, hClose, effOpenHour]
  rw [filterMap_if_none, List.map_map]
  have hfc : ((hourLoop (if m1 > 0 then Option.map (fun x => x + 1) (some h1) else some h1)
      (some h2)).filter (fun hr => !hasCustomOverlap date customSlots hr)) =
      ((intRangeTo (if 0 < m1 then h1 + 1 else h1) h2).filter
        (fun hr => decide (¬ customCoversHour date customSlots hr))) := by
    by_cases hm : (0 : Int) < m1 <;>
      simp only [hm, gt_iff_lt, if_true, if_false, Option.map_some', hourLoop] <;>
      exact List.filter_congr (fun x _ => hpt x)
  rw [hfc]
  rfl

/-- Closed instance of C5: with a custom slot 14:00–15:00 on the date, hour 14
is filtered out of the 09:00–17:00 range. -/
theorem c5_custom_precedence_witness :
    (generateTimeSlots "2024-01-08" (some ⟨"09:00", "17:00"⟩) [] [slotFix]).map
        (fun s => s.startTime) =
      ((intRangeTo 9 17).filter
        (fun hr => decide (¬ customCoversHour "2024-01-08" [slotFix] hr))).map
        (fun hr => jsPad2 hr ++ ":00") := by
  have h := c5_custom_precedence "2024-01-08" ⟨"09:00", "17:00"⟩ [] [slotFix] 9 0 17
    (by decide) (by decide)
  simpa using h

/-- C4: the overlap check answers true exactly when some other active slot of
the same (venueId, spaceId, date) satisfies the half-open intersection
condition s1 < e2 and e1 > s2 on minute intervals; concretely, next to an
existing 14:00–15:00 slot, 14:30–15:30 is reported as overlapping (and the
create route answers Conflict leaving the store unchanged) while the touching
15:00–16:00 is not (and is admitted with 201). -/
theorem c4_half_open_overlap (slots : List TimeSlotRec)
    (venueId spaceId date startTime endTime : String) (excl : Option String) (s1 e1 : Int)
    (hs : jsMinutes startTime = some s1) (he : jsMinutes endTime = some e1) :
    (checkSlotOverlap slots venueId spaceId date startTime endTime excl = true ↔
      ∃ s ∈ slots, s.venueId = venueId ∧ s.spaceId = spaceId ∧ s.date = date ∧
        s.isActive = true ∧ (∀ ex, excl = some ex → ex ≠ "" → s.id ≠ ex) ∧
        ∃ s2 e2, jsMinutes s.startTime = some s2 ∧ jsMinutes s.endTime = some e2 ∧
          s1 < e2 ∧ e1 > s2) ∧
    checkSlotOverlap [slotFix] "v1" "s1" "2024-01-08" "14:30" "15:30" none = true ∧
    checkSlotOverlap [slotFix] "v1" "s1" "2024-01-08" "15:00" "16:00" none = false ∧
    (createCustomSlot storeSlotFix "v1" "s1" "2024-01-08" "14:30" "15:30" (some 100)
      "u9" "t9").1.status = 409 ∧
    (createCustomSlot storeSlotFix "v1" "s1" "2024-01-08" "14:30" "15:30" (some 100)
      "u9" "t9").2 = storeSlotFix ∧
    (createCustomSlot storeSlotFix "v1" "s1" "2024-01-08" "15:00" "16:00" (some 100)
      "u9" "t9").1.status = 201 := by
  refine ⟨?_, by decide, by decide, by decide, by decide, by decide⟩
  cases excl with
  | none =>
    simp only [checkSlotOverlap, List.any_eq_true, List.mem_filter, Bool.and_eq_true,
      beq_iff_eq, hs, he, jsLtB_some_left, jsLtB_some_right, Bool.and_true]
    constructor
    · rintro ⟨s, ⟨hmem, ⟨⟨hv, hsp⟩, hd⟩, hact⟩, ⟨e2, he2, hlt1⟩, s2, hs2, hlt2⟩
      exact ⟨s, hmem, hv, hsp, hd, hact, by simp, s2, e2, hs2, he2, hlt1, hlt2⟩
    · rintro ⟨s, hmem, hv, hsp, hd, hact, -, s2, e2, hs2, he2, hlt1, hlt2⟩
      exact ⟨s, ⟨hmem, ⟨⟨hv, hsp⟩, hd⟩, hact⟩, ⟨e2, he2, hlt1⟩, s2, hs2, hlt2⟩
  | some ex =>
    by_cases hex : ex = ""
    · subst hex
      simp only [checkSlotOverlap, List.any_eq_true, List.mem_filter, Bool.and_eq_true,
        beq_iff_eq, hs, he, jsLtB_some_left, jsLtB_some_right]
      constructor
      · rintro ⟨s, ⟨hmem, ⟨⟨⟨hv, hsp⟩, hd⟩, hact⟩, -⟩, ⟨e2, he2, hlt1⟩, s2, hs2, hlt2⟩
        exact ⟨s, hmem, hv, hsp, hd, hact,
          by rintro e' he' hne; cases he'; exact absurd rfl hne,
          s2, e2, hs2, he2, hlt1, hlt2⟩
      · rintro ⟨s, hmem, hv, hsp, hd, hact, -, s2, e2, hs2, he2, hlt1, hlt2⟩
        exact ⟨s, ⟨hmem, ⟨⟨⟨hv, hsp⟩, hd⟩, hact⟩, by simp⟩, ⟨e2, he2, hlt1⟩, s2, hs2, hlt2⟩
    · simp only [checkSlotOverlap, List.any_eq_true, List.mem_filter, Bool.and_eq_true,
        beq_iff_eq, hs, he, jsLtB_some_left, jsLtB_some_right, if_neg hex, bne_iff_ne]
      constructor
      · rintro ⟨s, ⟨hmem, ⟨⟨⟨hv, hsp⟩, hd⟩, hact⟩, hid⟩, ⟨e2, he2, hlt1⟩, s2, hs2, hlt2⟩
        exact ⟨s, hmem, hv, hsp, hd, hact,
          by rintro e' he' -; cases he'; exact hid,
          s2, e2, hs2, he2, hlt1, hlt2⟩
      · rintro ⟨s, hmem, hv, hsp, hd, hact, hid, s2, e2, hs2, he2, hlt1, hlt2⟩
        exact ⟨s, ⟨hmem, ⟨⟨⟨hv, hsp⟩, hd⟩, hact⟩, hid ex rfl hex⟩,
          ⟨e2, he2, hlt1⟩, s2, hs2, hlt2⟩

/-- Closed instance of C4's characterization: the 14:30–15:30 candidate next
to the stored 14:00–15:00 slot is reported as overlapping. -/
theorem c4_half_open_overlap_witness :
    checkSlotOverlap [slotFix] "v1" "s1" "2024-01-08" "14:30" "15:30" none = true :=
  (c4_half_open_overlap [slotFix] "v1" "s1" "2024-01-08" "14:30" "15:30" none 870 930
    (by decide) (by decide)).2.1

/-- Counterexample to C2 as stated: with only a CANCELLED booking stored at
(v1, s1, 2024-01-08, 10:00), a new booking for that exact key is rejected
with Conflict (the unique index covers cancelled records and the duplicate-key
error is mapped to 409), even though no non-cancelled booking exists there —
so "Conflict if and only if a non-cancelled booking exists at the key" fails
in the only-if direction. -/
theorem c2_counterexample_cancelled_blocks :
    (createBookingRoute storeCancelledFix "v1" "s1" "2024-01-08" "10:00" "11:00" "Game"
      none (some "u1") "b2").1.status = 409 ∧
    storeCancelledFix.bookings.all (fun b =>
      !(sameBookingKey "v1" "s1" "2024-01-08" "10:00" b && b.status != "cancelled")) = true := by
  exact ⟨by decide, by decide⟩

/-- C2 amended: with venue, space and user present and all fields nonempty,
booking creation answers Conflict exactly when ANY booking — of any status,
cancelled included — already occupies the exact (venueId, spaceId, date,
startTime): non-cancelled ones trip the pre-check and cancelled ones trip the
unique index. A Conflict leaves the store unchanged; otherwise the request
succeeds with 201 and appends exactly one booking with status "pending". -/
theorem c2_exact_key_conflict (st : Store)
    (venueId spaceId date startTime endTime eventName : String)
    (notes : Option String) (uid newId : String) (v : Venue) (sp : SubVenue) (u : UserRec)
    (hdate : date ≠ "") (hst : startTime ≠ "") (het : endTime ≠ "") (hev : eventName ≠ "")
    (hv : findVenue st venueId = some v) (hsp : findSpace v spaceId = some sp)
    (hu : st.users.find? (fun x => x.id == uid) = some u)
    (r : BookResp × Store)
    (hr : createBookingRoute st venueId spaceId date startTime endTime eventName notes
      (some uid) newId = r) :
    (r.1.status = 409 ↔
      ∃ b ∈ st.bookings, sameBookingKey venueId spaceId date startTime b = true) ∧
    (r.1.status = 409 → r.2 = st) ∧
    (r.1.status ≠ 409 → r.1.status = 201 ∧ ∃ nb, r.1.booking = some nb ∧
      r.2.bookings = st.bookings ++ [nb] ∧ nb.status = "pending" ∧
      nb.venueId = venueId ∧ nb.spaceId = spaceId ∧ nb.date = date ∧
      nb.startTime = startTime) := by
  by_cases hpre : (st.bookings.find? (fun b =>
      b.venueId == venueId && b.spaceId == spaceId && b.date == date &&
        b.startTime == startTime && b.status != "cancelled")).isSome = true
  · have hval : r = (⟨409, none⟩, st) := by
      rw [← hr]
      simp [createBookingRoute, hv, hsp, hu, hpre, hdate, hst, het, hev]
    subst hval
    refine ⟨⟨fun _ => ?_, fun _ => rfl⟩, fun _ => rfl, fun h => absurd rfl h⟩
    obtain ⟨b, hbmem, hbpred⟩ := List.find?_isSome.mp hpre
    refine ⟨b, hbmem, ?_⟩
    simp only [Bool.and_eq_true] at hbpred
    simp only [sameBookingKey, Bool.and_eq_true]
    exact hbpred.1
  · by_cases hdup : st.bookings.any (sameBookingKey venueId spaceId date startTime) = true
    · have hval : r = (⟨409, none⟩, st) := by
        rw [← hr]
        simp [createBookingRoute, hv, hsp, hu, hpre, hdup, bookingCreate,
          hdate, hst, het, hev]
      subst hval
      refine ⟨⟨fun _ => ?_, fun _ => rfl⟩, fun _ => rfl, fun h => absurd rfl h⟩
      obtain ⟨b, hbmem, hbpred⟩ := List.any_eq_true.mp hdup
      exact ⟨b, hbmem, hbpred⟩
    · have hval : r =
          (⟨201, some { id := newId, venueId := venueId, spaceId := spaceId
                        spaceName := sp.name, userId := uid
                        userName := if u.name = "" then u.username else u.name
                        userEmail := u.email, eventName := eventName
                        date := date, startTime := startTime, endTime := endTime
                        status := "pending", notes := notes }⟩,
            { st with bookings := st.bookings ++
              [{ id := newId, venueId := venueId, spaceId := spaceId
                 spaceName := sp.name, userId := uid
                 userName := if u.name = "" then u.username else u.name
                 userEmail := u.email, eventName := eventName
                 date := date, startTime := startTime, endTime := endTime
                 status := "pending", notes := notes }] }) := by
        rw [← hr]
        simp [createBookingRoute, hv, hsp, hu, hpre, hdup, bookingCreate,
          hdate, hst, het, hev]
      subst hval
      refine ⟨⟨fun h => absurd h (by simp), fun hex => ?_⟩,
        fun h => absurd h (by simp), fun _ => ⟨rfl, ?_⟩⟩
      · obtain ⟨b, hbmem, hbkey⟩ := hex
        exact absurd (List.any_eq_true.mpr ⟨b, hbmem, hbkey⟩) (by simp [hdup])
      · exact ⟨_, rfl, rfl, rfl, rfl, rfl, rfl, rfl⟩

/-- Closed instance of C2 amended: on a store with no booking at the key, the
booking request succeeds with 201. -/
theorem c2_exact_key_conflict_witness :
    (createBookingRoute storeEmptyFix "v1" "s1" "2024-01-08" "10:00" "11:00" "Game" none
      (some "u1") "b9").1.status = 201 := by
  have h := c2_exact_key_conflict storeEmptyFix "v1" "s1" "2024-01-08" "10:00" "11:00" "Game"
    none "u1" "b9" vFix spaceFix uFix (by decide) (by decide) (by decide) (by decide)
    (by decide) (by decide) (by decide) _ rfl
  exact (h.2.2 (by decide)).1

/-- C10: soft-cancelling a booking through the admin status route keeps the
record (now status "cancelled"); a new booking at the same key then passes the
application pre-check (no non-cancelled booking is found) yet is rejected with
Conflict by the uniqueness index, leaving the store unchanged, while the
availability computation shows the hour as available; only the cancel route's
hard delete frees the key, after which the same booking request succeeds. -/
theorem c10_soft_cancel_blocks_rebooking
    (st : Store) (b : BookingRec) (uid : String)
    (v : Venue) (sp : SubVenue) (u : UserRec)
    (eventName : String) (notes : Option String) (newId : String)
    (hfind : st.bookings.find? (fun bb => bb.id == b.id) = some b)
    (hkey : ∀ b' ∈ st.bookings,
      sameBookingKey b.venueId b.spaceId b.date b.startTime b' = true → b' = b)
    (hv : findVenue st b.venueId = some v)
    (hsp : findSpace v b.spaceId = some sp)
    (hu : st.users.find? (fun x => x.id == uid) = some u)
    (hdate : b.date ≠ "") (hst : b.startTime ≠ "") (het : b.endTime ≠ "")
    (hev : eventName ≠ "")
    (r1 : Nat × Store) (hr1 : updateBookingStatusRoute st b.id "cancelled" = r1) :
    r1.1 = 200 ∧
    { b with status := "cancelled" } ∈ r1.2.bookings ∧
    r1.2.bookings.find? (fun bb =>
      bb.venueId == b.venueId && bb.spaceId == b.spaceId && bb.date == b.date &&
        bb.startTime == b.startTime && bb.status != "cancelled") = none ∧
    (createBookingRoute r1.2 b.venueId b.spaceId b.date b.startTime b.endTime eventName
        notes (some uid) newId).1.status = 409 ∧
    (createBookingRoute r1.2 b.venueId b.spaceId b.date b.startTime b.endTime eventName
        notes (some uid) newId).2 = r1.2 ∧
    (∀ oh custom, ∀ gs ∈ generateTimeSlots b.date (some oh)
        (r1.2.bookings.filter (fun bb => bb.venueId == b.venueId && bb.spaceId == b.spaceId &&
          bb.date == b.date && bb.status != "cancelled")) custom,
      gs.startTime = b.startTime → gs.available = true) ∧
    (cancelBookingRoute r1.2 b.id (some b.userId)).1 = 200 ∧
    (createBookingRoute (cancelBookingRoute r1.2 b.id (some b.userId)).2
      b.venueId b.spaceId b.date b.startTime b.endTime eventName notes (some uid)
      newId).1.status = 201 := by
  have hmem : b ∈ st.bookings := List.mem_of_find?_eq_some hfind
  have hr1v : r1 =
      (200, { st with bookings := st.bookings.map (setStatus b.id "cancelled") }) := by
    rw [← hr1]
    simp [updateBookingStatusRoute, hfind]
  subst hr1v
  have hsetid : ∀ x : BookingRec, (setStatus b.id "cancelled" x).id = x.id := by
    intro x; by_cases h : x.id = b.id <;> simp [setStatus, h]
  have hcbmem : { b with status := "cancelled" } ∈
      st.bookings.map (setStatus b.id "cancelled") :=
    List.mem_map.mpr ⟨b, hmem, by simp [setStatus]⟩
  -- no non-cancelled booking remains at the key
  have hpre : (st.bookings.map (setStatus b.id "cancelled")).find?
      (fun bb => bb.venueId == b.venueId && bb.spaceId == b.spaceId && bb.date == b.date &&
        bb.startTime == b.startTime && bb.status != "cancelled") = none := by
    apply List.find?_eq_none.mpr
    rintro x hx
    obtain ⟨bb, hbbmem, rfl⟩ := List.mem_map.mp hx
    by_cases hid : bb.id = b.id
    · simp [setStatus, hid]
    · simp only [setStatus, if_neg hid, Bool.and_eq_true, beq_iff_eq, bne_iff_ne, not_and]
      rintro ⟨⟨⟨hv', hsp'⟩, hd'⟩, hst'⟩
      have hbb : bb = b := hkey bb hbbmem (by
        simp only [sameBookingKey, Bool.and_eq_true, beq_iff_eq]
        exact ⟨⟨⟨hv', hsp'⟩, hd'⟩, hst'⟩)
      exact absurd (congrArg BookingRec.id hbb) hid
  -- but the key is still occupied for the uniqueness index
  have hany : (st.bookings.map (setStatus b.id "cancelled")).any
      (sameBookingKey b.venueId b.spaceId b.date b.startTime) = true :=
    List.any_eq_true.mpr ⟨{ b with status := "cancelled" }, hcbmem, by simp [sameBookingKey]⟩
  have hv1 : findVenue
      { st with bookings := st.bookings.map (setStatus b.id "cancelled") } b.venueId =
      some v := hv
  refine ⟨rfl, hcbmem, hpre, ?_, ?_, ?_, ?_, ?_⟩
  · simp [createBookingRoute, hv1, hsp, hu, hdate, hst, het, hev, hpre, bookingCreate, hany]
  · simp [createBookingRoute, hv1, hsp, hu, hdate, hst, het, hev, hpre, bookingCreate, hany]
  · -- availability still shows the hour as free
    intro oh custom gs hgs hstart
    simp only [generateTimeSlots] at hgs
    obtain ⟨hour, hhour, hsome⟩ := List.mem_filterMap.mp hgs
    by_cases hov : hasCustomOverlap b.date custom hour = true
    · simp [hov] at hsome
    · rw [if_neg hov] at hsome
      have hgsv := Option.some.inj hsome
      have hstart' : jsPad2 hour ++ ":00" = b.startTime := by
        rw [← hstart, ← hgsv]
      have hnone : ((st.bookings.map (setStatus b.id "cancelled")).filter
          (fun bb => bb.venueId == b.venueId && bb.spaceId == b.spaceId &&
            bb.date == b.date && bb.status != "cancelled")).find?
          (fun bb => bb.date == b.date && bb.startTime == b.startTime &&
            bb.status != "cancelled") = none := by
        apply List.find?_eq_none.mpr
        rintro x hx
        obtain ⟨hxmem, hxq⟩ := List.mem_filter.mp hx
        have hnpre := List.find?_eq_none.mp hpre x hxmem
        intro hcontra
        simp only [Bool.and_eq_true, beq_iff_eq, bne_iff_ne] at hcontra hnpre hxq
        exact hnpre ⟨⟨⟨⟨hxq.1.1.1, hxq.1.1.2⟩, hcontra.1.1⟩, hcontra.1.2⟩, hcontra.2⟩
      rw [← hgsv]
      simp only [hstart', hnone, Option.isNone_none]
  · -- the owner's cancel hard-deletes the record
    have hfind1 : (st.bookings.map (setStatus b.id "cancelled")).find?
        (fun bb => bb.id == b.id) = some { b with status := "cancelled" } := by
      rw [find?_map_pred_comm _ _ (fun x => by simp [hsetid x]), hfind]
      simp [setStatus]
    simp [cancelBookingRoute, hfind1]
  · -- after the hard delete the key is free and booking succeeds
    have hfind1 : (st.bookings.map (setStatus b.id "cancelled")).find?
        (fun bb => bb.id == b.id) = some { b with status := "cancelled" } := by
      rw [find?_map_pred_comm _ _ (fun x => by simp [hsetid x]), hfind]
      simp [setStatus]
    have hc2 : cancelBookingRoute
        { st with bookings := st.bookings.map (setStatus b.id "cancelled") }
        b.id (some b.userId) =
        (200, { st with bookings := (st.bookings.map (setStatus b.id "cancelled")).filter (fun bb => bb.id != b.id) }) := by
      simp [cancelBookingRoute, hfind1]
    rw [hc2]
    have hv2 : findVenue
        { st with bookings := (st.bookings.map (setStatus b.id "cancelled")).filter (fun bb => bb.id != b.id) }
        b.venueId = some v := hv
    have hpre2 : ((st.bookings.map (setStatus b.id "cancelled")).filter
        (fun bb => bb.id != b.id)).find?
        (fun bb => bb.venueId == b.venueId && bb.spaceId == b.spaceId && bb.date == b.date &&
          bb.startTime == b.startTime && bb.status != "cancelled") = none := by
      apply List.find?_eq_none.mpr
      intro x hx
      exact List.find?_eq_none.mp hpre x (List.mem_filter.mp hx).1
    have hany2 : ((st.bookings.map (setStatus b.id "cancelled")).filter
        (fun bb => bb.id != b.id)).any
        (sameBookingKey b.venueId b.spaceId b.date b.startTime) = false := by
      rw [List.any_eq_false]
      intro x hx
      obtain ⟨hxmem, hxid⟩ := List.mem_filter.mp hx
      obtain ⟨bb, hbbmem, rfl⟩ := List.mem_map.mp hxmem
      by_cases hid : bb.id = b.id
      · rw [hsetid bb, hid] at hxid
        simp at hxid
      · intro hxkey
        rw [show setStatus b.id "cancelled" bb = bb from by simp [setStatus, hid]] at hxkey
        exact absurd (congrArg BookingRec.id (hkey bb hbbmem hxkey)) hid
    simp [createBookingRoute, hv2, hsp, hu, hdate, hst, het, hev, hpre2, bookingCreate, hany2]

/-- Closed instance of C10: soft-cancelling the stored pending booking still
leaves re-booking of its slot rejected with Conflict. -/
theorem c10_soft_cancel_blocks_rebooking_witness :
    (createBookingRoute (updateBookingStatusRoute storePendingFix "b1" "cancelled").2
      "v1" "s1" "2024-01-08" "10:00" "11:00" "Rematch" none (some "u1") "b9").1.status = 409 := by
  have h := c10_soft_cancel_blocks_rebooking storePendingFix pendingBookingFix "u1"
    vFix spaceFix uFix "Rematch" none "b9" (by decide) (by decide) (by decide) (by decide)
    (by decide) (by decide) (by decide) (by decide) (by decide) _ rfl
  exact h.2.2.2.1

/-- C8: when a non-cancelled booking occupies a custom slot's current
(venueId, spaceId, date, startTime), any valid update that would change the
slot's date, startTime or endTime is rejected with Conflict and leaves the
store unchanged, while a price-only update succeeds with 200 and keeps the
slot's date, startTime and endTime exactly as they were. -/
theorem c8_booked_slot_update (st : Store) (venueId spaceId slotId : String)
    (ex : TimeSlotRec)
    (hfind : st.timeSlots.find? (fun s =>
      s.id == slotId && s.venueId == venueId && s.spaceId == spaceId) = some ex)
    (hbooked : (st.bookings.find? (fun b =>
      b.venueId == venueId && b.spaceId == spaceId && b.date == ex.date &&
        b.startTime == ex.startTime && b.status != "cancelled")).isSome = true) :
    (∀ (date startTime endTime : Option String) (price : Option Int),
      ¬ (jsTruthy startTime = true ∧ ¬ timeRegexTest (jsOrDefault startTime "") = true) →
      ¬ (jsTruthy endTime = true ∧ ¬ timeRegexTest (jsOrDefault endTime "") = true) →
      jsLeB (jsMinutes (jsOrDefault endTime ex.endTime))
        (jsMinutes (jsOrDefault startTime ex.startTime)) = false →
      (jsOrDefault startTime ex.startTime ≠ ex.startTime ∨
        jsOrDefault endTime ex.endTime ≠ ex.endTime ∨
        jsOrDefault date ex.date ≠ ex.date) →
      (updateCustomSlot st venueId spaceId slotId date startTime endTime price).1.status =
          409 ∧
        (updateCustomSlot st venueId spaceId slotId date startTime endTime price).2 = st) ∧
    (∀ p : Int,
      jsLeB (jsMinutes ex.endTime) (jsMinutes ex.startTime) = false →
      checkSlotOverlap st.timeSlots venueId spaceId ex.date ex.startTime ex.endTime
        (some slotId) = false →
      (∀ s ∈ st.timeSlots, s.id ≠ ex.id →
        sameSlotKey ex.venueId ex.spaceId ex.date ex.startTime s = false) →
      (updateCustomSlot st venueId spaceId slotId none none none (some p)).1.status = 200 ∧
        (updateCustomSlot st venueId spaceId slotId none none none (some p)).1.slot =
          some { ex with price := p } ∧
        (updateCustomSlot st venueId spaceId slotId none none none (some p)).2.timeSlots =
          st.timeSlots.map (fun s => if s.id = ex.id then { ex with price := p } else s)) := by
  constructor
  · intro date startTime endTime price h1 h2 h3 hchange
    have h1' : ¬ (jsTruthy startTime = true ∧
        timeRegexTest (jsOrDefault startTime "") = false) := by
      rintro ⟨a, hb⟩; exact h1 ⟨a, by simp [hb]⟩
    have h2' : ¬ (jsTruthy endTime = true ∧
        timeRegexTest (jsOrDefault endTime "") = false) := by
      rintro ⟨a, hb⟩; exact h2 ⟨a, by simp [hb]⟩
    by_cases hov : checkSlotOverlap st.timeSlots venueId spaceId (jsOrDefault date ex.date)
        (jsOrDefault startTime ex.startTime) (jsOrDefault endTime ex.endTime)
        (some slotId) = true
    · constructor <;>
        simp [updateCustomSlot, hfind, h1', h2', h3, hov]
    · constructor
      · simp [updateCustomSlot, hfind, h1', h2', h3, hov, hbooked,
          Option.isSome_iff_exists]
        rw [if_pos hchange]
      · simp [updateCustomSlot, hfind, h1', h2', h3, hov, hbooked,
          Option.isSome_iff_exists]
        rw [if_pos hchange]
  · intro p hle hov hkeys
    have hsave : (st.timeSlots.any (fun s =>
        s.id != ex.id && sameSlotKey ex.venueId ex.spaceId ex.date ex.startTime s)) = false := by
      rw [List.any_eq_false]
      intro s hsmem
      simp only [Bool.and_eq_true, bne_iff_ne, not_and]
      intro hid
      rw [hkeys s hsmem hid]
      simp
    refine ⟨?_, ?_, ?_⟩ <;>
      simp [updateCustomSlot, updatedSlot, hfind, jsTruthy, jsOrDefault, hle, hov,
        timeSlotSave, hsave]

/-- A filter and its complement partition a list's length. -/
theorem length_filter_add_length_not {α} (p : α → Bool) :
    ∀ l : List α, (l.filter p).length + (l.filter (fun a => !p a)).length = l.length
  | [] => rfl
  | a :: l => by
    by_cases h : p a = true <;>
      simp [List.filter_cons, h, ← length_filter_add_length_not p l] <;> omega

/-- One generation step, phrased through the key-collision test. -/
theorem genStep_eq (venueId spaceId userId : String) (price : Option Int)
    (idGen : String → String → String) (acc : GenAcc) (att : String × Int) :
    genStep venueId spaceId userId price idGen acc att =
      if keyTaken acc.slots venueId spaceId att then
        { acc with skipped := acc.skipped ++ [attSkipped att] }
      else
        { acc with
          created := acc.created ++ [attCreated venueId spaceId userId price idGen att]
          slots := acc.slots ++ [attSlot venueId spaceId userId price idGen att] } := by
  by_cases h : keyTaken acc.slots venueId spaceId att = true
  · have h' := h
    simp only [keyTaken] at h'
    simp [genStep, timeSlotCreate, attSlot, keyTaken, h, h']
  · have h' : acc.slots.any
        (sameSlotKey venueId spaceId att.1 (jsPad2 att.2 ++ ":00")) = false := by
      have := h
      simp only [keyTaken] at this
      revert this
      cases acc.slots.any (sameSlotKey venueId spaceId att.1 (jsPad2 att.2 ++ ":00")) <;> simp
    simp [genStep, timeSlotCreate, attSlot, keyTaken, h, h']

/-- Folding the generation step over attempts with pairwise-distinct keys:
the attempts fresh with respect to the pre-existing collection are created in
order, the colliding ones are skipped, and nothing else changes. -/
theorem genFold_spec (venueId spaceId userId : String) (price : Option Int)
    (idGen : String → String → String) :
    ∀ (atts : List (String × Int)) (created : List CreatedEntry)
      (skipped : List SkippedEntry) (extra base : List TimeSlotRec),
      (atts.map attKey).Nodup →
      (∀ a ∈ atts, keyTaken extra venueId spaceId a = false) →
      atts.foldl (genStep venueId spaceId userId price idGen)
          ⟨created, skipped, base ++ extra⟩ =
        ⟨created ++ (atts.filter
            (fun a => !keyTaken base venueId spaceId a)).map
            (attCreated venueId spaceId userId price idGen),
          skipped ++ (atts.filter
            (fun a => keyTaken base venueId spaceId a)).map attSkipped,
          (base ++ extra) ++ (atts.filter
            (fun a => !keyTaken base venueId spaceId a)).map
            (attSlot venueId spaceId userId price idGen)⟩
  | [], created, skipped, extra, base, _, _ => by simp
  | a :: atts, created, skipped, extra, base, hnodup, hextra => by
    have h0 : keyTaken extra venueId spaceId a = false :=
      hextra a (List.mem_cons_self a atts)
    have hkey_a : keyTaken (base ++ extra) venueId spaceId a =
        keyTaken base venueId spaceId a := by
      simp only [keyTaken] at h0 ⊢
      rw [List.any_append, h0, Bool.or_false]
    have hcons : (attKey a :: atts.map attKey).Nodup := by
      rw [← List.map_cons]; exact hnodup
    have hnodup' : (atts.map attKey).Nodup := (List.nodup_cons.mp hcons).2
    have hnotmem : attKey a ∉ atts.map attKey := (List.nodup_cons.mp hcons).1
    rw [List.foldl_cons, genStep_eq, hkey_a]
    by_cases hc : keyTaken base venueId spaceId a = true
    · rw [if_pos hc]
      rw [genFold_spec venueId spaceId userId price idGen atts created
        (skipped ++ [attSkipped a]) extra base hnodup' (fun b hb => hextra b (by simp [hb]))]
      simp [List.filter_cons, hc]
    · have hc' : keyTaken base venueId spaceId a = false := by
        revert hc; cases keyTaken base venueId spaceId a <;> simp
      rw [if_neg (by simp [hc'])]
      have hextra' : ∀ b ∈ atts,
          keyTaken (extra ++ [attSlot venueId spaceId userId price idGen a])
            venueId spaceId b = false := by
        intro b hb
        have he1 : extra.any (sameSlotKey venueId spaceId b.1 (jsPad2 b.2 ++ ":00")) =
            false := by
          have hx := hextra b (by simp [hb])
          simpa [keyTaken] using hx
        simp only [keyTaken, List.any_append, he1, Bool.false_or, List.any_cons,
          List.any_nil, Bool.or_false]
        simp only [sameSlotKey, attSlot]
        refine Bool.eq_false_iff.mpr ?_
        intro hcontra
        simp only [Bool.and_eq_true, beq_iff_eq] at hcontra
        apply hnotmem
        have hk : attKey a = attKey b := by
          simp only [attKey, Prod.mk.injEq]
          exact ⟨hcontra.1.2, hcontra.2⟩
        rw [hk]
        exact List.mem_map.mpr ⟨b, hb, rfl⟩
      have hassoc : (base ++ extra) ++ [attSlot venueId spaceId userId price idGen a] =
          base ++ (extra ++ [attSlot venueId spaceId userId price idGen a]) := by
        rw [List.append_assoc]
      rw [hassoc]
      rw [genFold_spec venueId spaceId userId price idGen atts
        (created ++ [attCreated venueId spaceId userId price idGen a]) skipped
        (extra ++ [attSlot venueId spaceId userId price idGen a]) base hnodup' hextra']
      simp [List.filter_cons, hc', List.append_assoc]

/-- C9: with venue, space and operating hours present, and the run's attempt
keys pairwise distinct, the bulk generate operation always answers 201: each
attempt colliding with an already-stored slot key is counted in `skipped`,
every other attempt is persisted and counted in `created`, the two counts
partition the attempts, and nothing else in the store changes. -/
theorem c9_bulk_generate_tolerates_duplicates (st : Store) (venueId spaceId : String)
    (startDate endDate : Option String) (price : Option Int) (userId : String)
    (idGen : String → String → String) (nowDays : Int)
    (v : Venue) (sp : SubVenue) (oh : OperatingHours)
    (hv : findVenue st venueId = some v) (hsp : findSpace v spaceId = some sp)
    (hoh : v.operatingHours = some oh)
    (atts : List (String × Int))
    (hatts : atts = (genDays startDate endDate nowDays).flatMap (dayAttempts oh))
    (hnodup : (atts.map attKey).Nodup)
    (r : GenResp × Store)
    (hr : generateSlotsRoute st venueId spaceId startDate endDate price userId idGen
      nowDays = r) :
    r.1.status = 201 ∧
    r.1.created =
      (atts.filter (fun a => !keyTaken st.timeSlots venueId spaceId a)).length ∧
    r.1.skipped = (atts.filter (fun a => keyTaken st.timeSlots venueId spaceId a)).length ∧
    r.1.created + r.1.skipped = atts.length ∧
    r.2.timeSlots = st.timeSlots ++
      (atts.filter (fun a => !keyTaken st.timeSlots venueId spaceId a)).map
        (attSlot venueId spaceId userId price idGen) ∧
    r.2.bookings = st.bookings ∧
    r.2.venues = st.venues := by
  subst hatts
  have hfold := genFold_spec venueId spaceId userId price idGen
    ((genDays startDate endDate nowDays).flatMap (dayAttempts oh)) [] [] [] st.timeSlots
    hnodup (fun a _ => rfl)
  rw [List.append_nil] at hfold
  rw [← hr]
  simp only [generateSlotsRoute, hv, hsp, hoh]
  rw [hfold]
  refine ⟨trivial, by simp, by simp, ?_, by simp, trivial, trivial⟩
  have hpart := length_filter_add_length_not
    (fun a => keyTaken st.timeSlots venueId spaceId a)
    ((genDays startDate endDate nowDays).flatMap (dayAttempts oh))
  simp only [List.nil_append, List.length_map]
  omega

/-- Closed instance of C9: generating 2024-01-08 (a Monday, 09:00–17:00) over
a store already holding the 14:00 custom slot creates 7 slots, skips exactly
the colliding 14:00 one, and still answers 201. -/
theorem c9_bulk_generate_tolerates_duplicates_witness :
    (generateSlotsRoute storeSlotFix "v1" "s1" (some "2024-01-08") (some "2024-01-08")
      (some 100) "u9" (fun d t => d ++ "|" ++ t) 0).1.status = 201 ∧
    (generateSlotsRoute storeSlotFix "v1" "s1" (some "2024-01-08") (some "2024-01-08")
      (some 100) "u9" (fun d t => d ++ "|" ++ t) 0).1.created = 7 ∧
    (generateSlotsRoute storeSlotFix "v1" "s1" (some "2024-01-08") (some "2024-01-08")
      (some 100) "u9" (fun d t => d ++ "|" ++ t) 0).1.skipped = 1 := by
  have h := c9_bulk_generate_tolerates_duplicates storeSlotFix "v1" "s1" (some "2024-01-08")
    (some "2024-01-08") (some 100) "u9" (fun d t => d ++ "|" ++ t) 0 vFix spaceFix
    { monday := some ⟨"09:00", "17:00"⟩
      tuesday := none, wednesday := none, thursday := none
      friday := none, saturday := none, sunday := none }
    (by decide) (by decide) (by decide) _ rfl (by decide) _ rfl
  refine ⟨h.1, ?_, ?_⟩
  · rw [h.2.1]; decide
  · rw [h.2.2.1]; decide

theorem slotConflictB_decomp {a b : TimeSlotRec} (h : slotConflictB a b = true) :
    a.isActive = true ∧ b.isActive = true ∧ a.venueId = b.venueId ∧
      a.spaceId = b.spaceId ∧ a.date = b.date ∧
      jsLtB (jsMinutes a.startTime) (jsMinutes b.endTime) = true ∧
      jsLtB (jsMinutes b.startTime) (jsMinutes a.endTime) = true := by
  simp only [slotConflictB, Bool.and_eq_true, beq_iff_eq] at h
  exact ⟨h.1.1.1.1.1.1, h.1.1.1.1.1.2, h.1.1.1.1.2, h.1.1.1.2, h.1.1.2, h.1.2, h.2⟩

/-- A negative overlap check bounds every active same-key slot away from the
candidate interval. -/
theorem checkSlotOverlap_false_elim
    (slots : List TimeSlotRec) (venueId spaceId date startTime endTime : String)
    (excl : Option String)
    (hchk : checkSlotOverlap slots venueId spaceId date startTime endTime excl = false)
    (s : TimeSlotRec) (hs : s ∈ slots)
    (hv : s.venueId = venueId) (hsp : s.spaceId = spaceId) (hd : s.date = date)
    (hact : s.isActive = true)
    (hex : match excl with
      | none => True
      | some e => e = "" ∨ s.id ≠ e) :
    (jsLtB (jsMinutes startTime) (jsMinutes s.endTime) &&
      jsLtB (jsMinutes s.startTime) (jsMinutes endTime)) = false := by
  simp only [checkSlotOverlap] at hchk
  rw [List.any_eq_false] at hchk
  refine Bool.eq_false_iff.mpr (hchk s ?_)
  rw [List.mem_filter]
  refine ⟨hs, ?_⟩
  cases excl with
  | none => simp [hv, hsp, hd, hact]
  | some e =>
    rcases hex with he | he
    · simp [hv, hsp, hd, hact, he]
    · by_cases he0 : e = ""
      · simp [hv, hsp, hd, hact, he0]
      · simp [hv, hsp, hd, hact, he0, he]

/-- Appending a slot that passes the overlap check (no exclusion) preserves
the invariant. -/
theorem noOverlapInv_append (slots : List TimeSlotRec) (slot : TimeSlotRec)
    (hinv : noOverlapInv slots)
    (hchk : checkSlotOverlap slots slot.venueId slot.spaceId slot.date slot.startTime
      slot.endTime none = false) :
    noOverlapInv (slots ++ [slot]) := by
  rw [noOverlapInv, List.pairwise_append]
  refine ⟨hinv, List.pairwise_singleton _ _, ?_⟩
  intro a ha b hb
  rw [show b = slot from by simpa using hb]
  refine Bool.eq_false_iff.mpr ?_
  intro hcon
  obtain ⟨hactA, _, hvv, hss, hdd, h1, h2⟩ := slotConflictB_decomp hcon
  have helim := checkSlotOverlap_false_elim slots slot.venueId slot.spaceId slot.date
    slot.startTime slot.endTime none hchk a ha hvv hss hdd hactA trivial
  rw [h1, h2] at helim
  simp at helim

/-- Replacing one slot by an update that passes the overlap check excluding
its own id preserves the invariant, provided slot ids are unique. -/
theorem noOverlapInv_replace (slots : List TimeSlotRec) (ex upd : TimeSlotRec)
    (hinv : noOverlapInv slots) (hids : (slots.map (fun s => s.id)).Nodup)
    (hex : ex ∈ slots)
    (hchk : checkSlotOverlap slots upd.venueId upd.spaceId upd.date upd.startTime
      upd.endTime (some ex.id) = false) :
    noOverlapInv (slots.map (fun s => if s.id = ex.id then upd else s)) := by
  rw [noOverlapInv, List.pairwise_map]
  have hne : slots.Pairwise (fun a b => a.id ≠ b.id) := List.pairwise_map.mp hids
  have hcomb := hinv.and hne
  refine hcomb.imp_of_mem ?_
  intro a b ha hb hab
  obtain ⟨hcf, hidne⟩ := hab
  by_cases haid : a.id = ex.id <;> by_cases hbid : b.id = ex.id
  · exact absurd (haid.trans hbid.symm) hidne
  · have haeq : a = ex :=
      List.inj_on_of_nodup_map hids ha hex (by rw [haid])
    rw [if_pos haid, if_neg hbid]
    refine Bool.eq_false_iff.mpr ?_
    intro hcon
    obtain ⟨_, hactB, hvv, hss, hdd, h1, h2⟩ := slotConflictB_decomp hcon
    have helim := checkSlotOverlap_false_elim slots upd.venueId upd.spaceId upd.date
      upd.startTime upd.endTime (some ex.id) hchk b hb hvv.symm hss.symm hdd.symm hactB
      (Or.inr hbid)
    rw [h1, h2] at helim
    simp at helim
  · have hbeq : b = ex :=
      List.inj_on_of_nodup_map hids hb hex (by rw [hbid])
    rw [if_neg haid, if_pos hbid]
    refine Bool.eq_false_iff.mpr ?_
    intro hcon
    obtain ⟨hactA, _, hvv, hss, hdd, h1, h2⟩ := slotConflictB_decomp hcon
    have helim := checkSlotOverlap_false_elim slots upd.venueId upd.spaceId upd.date
      upd.startTime upd.endTime (some ex.id) hchk a ha hvv hss hdd hactA
      (Or.inr haid)
    rw [h1, h2] at helim
    simp at helim
  · rw [if_neg haid, if_neg hbid]
    exact hcf

instance noOverlapInvDecidable (slots : List TimeSlotRec) :
    Decidable (noOverlapInv slots) := by
  unfold noOverlapInv
  infer_instance

/-- Counterexample to C1 as stated: from a clean store, an admin creates the
custom slot 09:30–10:30 on 2024-01-01 (invariant holds), then bulk
generate-slots runs over that same date; it answers 201 and persists hourly
slots such as 09:00–10:00 and 10:00–11:00 whose intervals overlap the active
custom slot but whose startTimes differ, so the resulting reachable store
violates the pairwise no-overlap invariant without any Conflict. -/
theorem c1_counterexample_generate_breaks_invariant :
    (createCustomSlot storeAdminFix "v1" "s1" "2024-01-01" "09:30" "10:30" (some 100)
      "u9" "t2").1.status = 201 ∧
    noOverlapInv (createCustomSlot storeAdminFix "v1" "s1" "2024-01-01" "09:30" "10:30"
      (some 100) "u9" "t2").2.timeSlots ∧
    (generateSlotsRoute (createCustomSlot storeAdminFix "v1" "s1" "2024-01-01" "09:30"
        "10:30" (some 100) "u9" "t2").2 "v1" "s1" (some "2024-01-01") (some "2024-01-01")
      (some 150) "u9" (fun d t => d ++ "|" ++ t) 0).1.status = 201 ∧
    ¬ noOverlapInv (generateSlotsRoute (createCustomSlot storeAdminFix "v1" "s1"
        "2024-01-01" "09:30" "10:30" (some 100) "u9" "t2").2 "v1" "s1"
      (some "2024-01-01") (some "2024-01-01") (some 150) "u9"
      (fun d t => d ++ "|" ++ t) 0).2.timeSlots := by
  refine ⟨by decide, by decide, by decide, by decide⟩

/-- C1 amended: the no-overlap invariant is enforced by the single-slot
operations. For custom-slot create and update, every outcome preserves the
pairwise no-overlap invariant (given unique slot ids), every rejected request
leaves the store unchanged, and a request that passes validation and lookups
but whose committed record would overlap an existing active same-key slot is
answered 409 with the store unchanged. (Bulk generate-slots is NOT covered:
it performs no interval check, and `c1_counterexample_generate_breaks_invariant`
shows it committing overlapping active slots with status 201.) -/
theorem c1_create_update_enforce_no_overlap (st : Store) (op : SlotOp)
    (hinv : noOverlapInv st.timeSlots)
    (hids : (st.timeSlots.map (fun s => s.id)).Nodup) :
    noOverlapInv (applySlotOp st op).2.timeSlots ∧
    ((applySlotOp st op).1.status ≠ 201 ∧ (applySlotOp st op).1.status ≠ 200 →
      (applySlotOp st op).2 = st) ∧
    (wouldIntroduceOverlap st op →
      (applySlotOp st op).1.status = 409 ∧ (applySlotOp st op).2 = st) := by
  cases op with
  | createOp venueId spaceId date startTime endTime price userId newId =>
    simp only [applySlotOp]
    by_cases h1 : (date = "" ∨ startTime = "" ∨ endTime = "")
    · have hval : createCustomSlot st venueId spaceId date startTime endTime price
          userId newId = (⟨400, none⟩, st) := by
        simp [createCustomSlot, h1]
      rw [hval]
      exact ⟨hinv, fun _ => rfl, fun hw => absurd h1 hw.1⟩
    · by_cases h2 : (timeRegexTest startTime = true ∧ timeRegexTest endTime = true)
      · by_cases h3 : jsLeB (jsMinutes endTime) (jsMinutes startTime) = true
        · have hval : createCustomSlot st venueId spaceId date startTime endTime price
              userId newId = (⟨400, none⟩, st) := by
            simp [createCustomSlot, h1, h2, h3]
          rw [hval]
          refine ⟨hinv, fun _ => rfl, ?_⟩
          rintro ⟨-, -, hle, -⟩
          rw [h3] at hle
          cases hle
        · rcases hv : findVenue st venueId with _ | v
          · have hval : createCustomSlot st venueId spaceId date startTime endTime price
                userId newId = (⟨404, none⟩, st) := by
              simp [createCustomSlot, h1, h2, h3, hv]
            rw [hval]
            refine ⟨hinv, fun _ => rfl, ?_⟩
            rintro ⟨-, -, -, ⟨v', hv', -⟩, -⟩
            rw [hv] at hv'
            cases hv'
          · rcases hsp : findSpace v spaceId with _ | sp
            · have hval : createCustomSlot st venueId spaceId date startTime endTime price
                  userId newId = (⟨404, none⟩, st) := by
                simp [createCustomSlot, h1, h2, h3, hv, hsp]
              rw [hval]
              refine ⟨hinv, fun _ => rfl, ?_⟩
              rintro ⟨-, -, -, ⟨v', hv', hsp'⟩, -⟩
              rw [hv] at hv'
              cases Option.some.inj hv'
              rw [hsp] at hsp'
              cases hsp'
            · by_cases hov : checkSlotOverlap st.timeSlots venueId spaceId date startTime
                  endTime none = true
              · have hval : createCustomSlot st venueId spaceId date startTime endTime
                    price userId newId = (⟨409, none⟩, st) := by
                  simp [createCustomSlot, h1, h2, h3, hv, hsp, hov]
                rw [hval]
                exact ⟨hinv, fun _ => rfl, fun _ => ⟨rfl, rfl⟩⟩
              · have hov' : checkSlotOverlap st.timeSlots venueId spaceId date startTime
                    endTime none = false := by
                  revert hov
                  cases checkSlotOverlap st.timeSlots venueId spaceId date startTime
                    endTime none <;> simp
                by_cases hdup : st.timeSlots.any
                    (sameSlotKey venueId spaceId date startTime) = true
                · have hval : createCustomSlot st venueId spaceId date startTime endTime
                      price userId newId = (⟨409, none⟩, st) := by
                    simp only [createCustomSlot, hv, hsp]
                    rw [if_neg h1, if_neg (not_not_intro h2), if_neg h3, if_neg hov]
                    simp only [timeSlotCreate, newCustomSlot]
                    rw [if_pos hdup]
                  rw [hval]
                  refine ⟨hinv, fun _ => rfl, ?_⟩
                  rintro ⟨-, -, -, -, hover⟩
                  rw [hov'] at hover
                  cases hover
                · have hval : createCustomSlot st venueId spaceId date startTime endTime
                      price userId newId =
                      (⟨201, some (newCustomSlot venueId spaceId date startTime endTime
                          price userId newId)⟩,
                        { st with timeSlots := (st.timeSlots ++ [newCustomSlot venueId spaceId date startTime endTime price userId newId]) }) := by
                    simp only [createCustomSlot, hv, hsp]
                    rw [if_neg h1, if_neg (not_not_intro h2), if_neg h3, if_neg hov]
                    simp only [timeSlotCreate, newCustomSlot]
                    rw [if_neg hdup]
                  rw [hval]
                  refine ⟨?_, fun h => absurd rfl h.1, ?_⟩
                  · exact noOverlapInv_append st.timeSlots _ hinv hov'
                  · rintro ⟨-, -, -, -, hover⟩
                    rw [hov'] at hover
                    cases hover
      · have hval : createCustomSlot st venueId spaceId date startTime endTime price
            userId newId = (⟨400, none⟩, st) := by
          simp only [createCustomSlot]
          rw [if_neg h1, if_pos (by exact h2)]
        rw [hval]
        refine ⟨hinv, fun _ => rfl, ?_⟩
        rintro ⟨-, hreg, -⟩
        exact absurd hreg h2
  | updateOp venueId spaceId slotId date startTime endTime price =>
    simp only [applySlotOp]
    rcases hfind : st.timeSlots.find? (fun s =>
        s.id == slotId && s.venueId == venueId && s.spaceId == spaceId) with _ | ex
    · have hval : updateCustomSlot st venueId spaceId slotId date startTime endTime
          price = (⟨404, none⟩, st) := by
        simp [updateCustomSlot, hfind]
      rw [hval]
      refine ⟨hinv, fun _ => rfl, ?_⟩
      rintro ⟨ex', hex', -⟩
      rw [hfind] at hex'
      cases hex'
    · have hpred := List.find?_some hfind
      simp only [Bool.and_eq_true, beq_iff_eq] at hpred
      obtain ⟨⟨hexid, hexv⟩, hexs⟩ := hpred
      have hmem : ex ∈ st.timeSlots := List.mem_of_find?_eq_some hfind
      by_cases hr1 : (jsTruthy startTime = true ∧
          ¬ timeRegexTest (jsOrDefault startTime "") = true)
      · have hval : updateCustomSlot st venueId spaceId slotId date startTime endTime
            price = (⟨400, none⟩, st) := by
          simp only [updateCustomSlot, hfind]
          rw [if_pos hr1]
        rw [hval]
        refine ⟨hinv, fun _ => rfl, ?_⟩
        rintro ⟨ex', hex', hw1, -⟩
        rw [hfind] at hex'
        cases Option.some.inj hex'
        exact absurd hr1 hw1
      · by_cases hr2 : (jsTruthy endTime = true ∧
            ¬ timeRegexTest (jsOrDefault endTime "") = true)
        · have hval : updateCustomSlot st venueId spaceId slotId date startTime endTime
              price = (⟨400, none⟩, st) := by
            simp only [updateCustomSlot, hfind]
            rw [if_neg hr1, if_pos hr2]
          rw [hval]
          refine ⟨hinv, fun _ => rfl, ?_⟩
          rintro ⟨ex', hex', -, hw2, -⟩
          rw [hfind] at hex'
          cases Option.some.inj hex'
          exact absurd hr2 hw2
        · by_cases hle : jsLeB (jsMinutes (jsOrDefault endTime ex.endTime))
              (jsMinutes (jsOrDefault startTime ex.startTime)) = true
          · have hval : updateCustomSlot st venueId spaceId slotId date startTime endTime
                price = (⟨400, none⟩, st) := by
              simp only [updateCustomSlot, hfind]
              rw [if_neg hr1, if_neg hr2, if_pos hle]
            rw [hval]
            refine ⟨hinv, fun _ => rfl, ?_⟩
            rintro ⟨ex', hex', -, -, hw3, -⟩
            rw [hfind] at hex'
            cases Option.some.inj hex'
            rw [hle] at hw3
            cases hw3
          · by_cases hov : checkSlotOverlap st.timeSlots venueId spaceId
                (jsOrDefault date ex.date) (jsOrDefault startTime ex.startTime)
                (jsOrDefault endTime ex.endTime) (some slotId) = true
            · have hval : updateCustomSlot st venueId spaceId slotId date startTime
                  endTime price = (⟨409, none⟩, st) := by
                simp only [updateCustomSlot, hfind]
                rw [if_neg hr1, if_neg hr2, if_neg hle, if_pos hov]
              rw [hval]
              exact ⟨hinv, fun _ => rfl, fun _ => ⟨rfl, rfl⟩⟩
            · have hov' : checkSlotOverlap st.timeSlots venueId spaceId
                  (jsOrDefault date ex.date) (jsOrDefault startTime ex.startTime)
                  (jsOrDefault endTime ex.endTime) (some slotId) = false := by
                revert hov
                cases checkSlotOverlap st.timeSlots venueId spaceId
                  (jsOrDefault date ex.date) (jsOrDefault startTime ex.startTime)
                  (jsOrDefault endTime ex.endTime) (some slotId) <;> simp
              have hcontra3 : ∀ _ : wouldIntroduceOverlap st
                  (.updateOp venueId spaceId slotId date startTime endTime price),
                  False := by
                rintro ⟨ex', hex', -, -, -, hover⟩
                rw [hfind] at hex'
                cases Option.some.inj hex'
                rw [hov'] at hover
                cases hover
              by_cases hbk : ((st.bookings.find? (fun b =>
                  b.venueId == venueId && b.spaceId == spaceId && b.date == ex.date &&
                    b.startTime == ex.startTime && b.status != "cancelled")).isSome = true ∧
                  (jsOrDefault startTime ex.startTime ≠ ex.startTime ∨
                    jsOrDefault endTime ex.endTime ≠ ex.endTime ∨
                    jsOrDefault date ex.date ≠ ex.date))
              · have hval : updateCustomSlot st venueId spaceId slotId date startTime
                    endTime price = (⟨409, none⟩, st) := by
                  simp only [updateCustomSlot, hfind]
                  rw [if_neg hr1, if_neg hr2, if_neg hle, if_neg (by simp [hov']),
                    if_pos hbk]
                rw [hval]
                exact ⟨hinv, fun _ => rfl, fun hw => absurd (hcontra3 hw) (fun h => h)⟩
              · by_cases hdup : st.timeSlots.any (fun s =>
                    s.id != ex.id && sameSlotKey ex.venueId ex.spaceId
                      (jsOrDefault date ex.date) (jsOrDefault startTime ex.startTime) s) =
                    true
                · have hval : updateCustomSlot st venueId spaceId slotId date startTime
                      endTime price = (⟨500, none⟩, st) := by
                    simp only [updateCustomSlot, hfind]
                    rw [if_neg hr1, if_neg hr2, if_neg hle, if_neg (by simp [hov']),
                      if_neg hbk]
                    simp only [timeSlotSave]
                    rw [if_pos (by exact hdup)]
                  rw [hval]
                  exact ⟨hinv, fun _ => rfl, fun hw => absurd (hcontra3 hw) (fun h => h)⟩
                · have hdup' : st.timeSlots.any (fun s =>
                      s.id != ex.id && sameSlotKey ex.venueId ex.spaceId
                        (jsOrDefault date ex.date) (jsOrDefault startTime ex.startTime) s) =
                      false := by
                    revert hdup
                    cases st.timeSlots.any (fun s =>
                      s.id != ex.id && sameSlotKey ex.venueId ex.spaceId
                        (jsOrDefault date ex.date)
                        (jsOrDefault startTime ex.startTime) s) <;> simp
                  have hval : updateCustomSlot st venueId spaceId slotId date startTime
                      endTime price =
                      (⟨200, some (updatedSlot ex date startTime endTime price)⟩,
                        { st with timeSlots := (st.timeSlots.map (fun s =>
                          if s.id = ex.id then updatedSlot ex date startTime endTime price
                          else s)) }) := by
                    simp only [updateCustomSlot, hfind]
                    rw [if_neg hr1, if_neg hr2, if_neg hle, if_neg (by simp [hov']),
                      if_neg hbk]
                    simp only [timeSlotSave, updatedSlot]
                    rw [if_neg hdup]
                  rw [hval]
                  refine ⟨?_, fun h => absurd rfl h.2,
                    fun hw => absurd (hcontra3 hw) (fun h => h)⟩
                  have hchk2 : checkSlotOverlap st.timeSlots ex.venueId ex.spaceId
                      (jsOrDefault date ex.date) (jsOrDefault startTime ex.startTime)
                      (jsOrDefault endTime ex.endTime) (some ex.id) = false := by
                    rw [hexv, hexs, hexid]
                    exact hov'
                  exact noOverlapInv_replace st.timeSlots ex _ hinv hids hmem hchk2

/-- Closed instance of C1 amended: creating 14:30–15:30 next to the active
14:00–15:00 slot is answered 409 and the invariant is kept. -/
theorem c1_create_update_enforce_no_overlap_witness :
    noOverlapInv (applySlotOp storeSlotFix
      (.createOp "v1" "s1" "2024-01-08" "14:30" "15:30" (some 100) "u9" "t9")).2.timeSlots ∧
    (applySlotOp storeSlotFix
      (.createOp "v1" "s1" "2024-01-08" "14:30" "15:30" (some 100) "u9" "t9")).1.status =
      409 := by
  have h := c1_create_update_enforce_no_overlap storeSlotFix
    (.createOp "v1" "s1" "2024-01-08" "14:30" "15:30" (some 100) "u9" "t9")
    (by decide) (by decide)
  refine ⟨h.1, (h.2.2 ?_).1⟩
  exact ⟨by decide, by decide, by decide, ⟨vFix, by decide, by decide⟩, by decide⟩

/-- Closed instance of C8: moving the booked 14:00–15:00 slot is refused with
409, while changing only its price succeeds with 200. -/
theorem c8_booked_slot_update_witness :
    (updateCustomSlot storeBookedSlotFix "v1" "s1" "t1" none (some "15:00") (some "16:00")
      none).1.status = 409 ∧
    (updateCustomSlot storeBookedSlotFix "v1" "s1" "t1" none none none
      (some 200)).1.status = 200 := by
  have h := c8_booked_slot_update storeBookedSlotFix "v1" "s1" "t1" slotFix
    (by decide) (by decide)
  exact ⟨(h.1 none (some "15:00") (some "16:00") none (by decide) (by decide) (by decide)
    (by decide)).1, (h.2 200 (by decide) (by decide) (by decide)).1⟩

end BPlay
